import Mathlib

set_option maxRecDepth 100000
set_option maxHeartbeats 2000000

/-!
# Verification of the paicode Action Execution Engine

This file gives a shallow embedding, in Lean 4, of the core of the `paicode`
repository — the path sandbox, workspace store, diff-bounded patch applier,
credential rotation store, shell executor and action dispatcher — and proves
or refutes the frozen behavioural claims about them.

Python strings are modelled by Lean `String`, with all operations implemented
by structural recursion over the underlying character list so that every
definition evaluates inside the kernel.  Python's ASCII-oriented string
methods (`strip`, `upper`, `lower`, `startswith`, `in`, `split`, `replace`,
`partition`, `splitlines`) are reproduced on that representation; Unicode
subtleties that the repository never relies on (exotic line separators,
non-ASCII case folding) are out of scope and noted at each definition.

The filesystem is modelled as an association list of file paths to contents
plus a set of directories; wall-clock time is modelled by a natural number
parameter; child processes are modelled by an explicit behaviour datatype
(terminate after `t` seconds / block forever); the external text generator
is an oracle function supplied as a parameter.
-/

/-! ## String layer: Python string operations over `List Char` -/

/-- The characters of a string (Python: iterating over `s`). -/
def sChars (s : String) : List Char := s.data

/-- Build a string back from characters. -/
def sOf (l : List Char) : String := String.mk l

/-- Python `s.startswith(p)`. -/
def startsWithS (s p : String) : Bool := p.data.isPrefixOf s.data

/-- Python `s.endswith(p)`. -/
def endsWithS (s p : String) : Bool := p.data.isSuffixOf s.data

/-- Is `pat` a contiguous sublist of the second argument? -/
def isInfixL (pat : List Char) : List Char → Bool
  | [] => pat.isEmpty
  | c :: rest => pat.isPrefixOf (c :: rest) || isInfixL pat rest

/-- Python `p in s` (substring containment; for `p = ""` both return true). -/
def containsS (s p : String) : Bool := isInfixL p.data s.data

/-- Helper for splitting on a single character. -/
def splitChGo (sep : Char) : List Char → List Char → List (List Char)
  | [], cur => [cur.reverse]
  | c :: rest, cur =>
    if c = sep then cur.reverse :: splitChGo sep rest []
    else splitChGo sep rest (c :: cur)

/-- Python `s.split(sep)` for a one-character separator. -/
def splitCh (sep : Char) (s : String) : List String :=
  (splitChGo sep s.data []).map sOf

/-- Fuel-driven splitter on a multi-character separator (the fuel is an upper
bound on the number of characters still to be consumed, so it never runs out
when called through `splitS`). -/
def splitSGo (sep : List Char) : Nat → List Char → List Char → List (List Char)
  | 0, l, cur => [cur.reverse ++ l]
  | _ + 1, [], cur => [cur.reverse]
  | fuel + 1, c :: rest, cur =>
    if sep.isPrefixOf (c :: rest) then
      cur.reverse :: splitSGo sep fuel (List.drop (sep.length - 1) rest) []
    else
      splitSGo sep fuel rest (c :: cur)

/-- Python `s.split(sep)` for a non-empty separator string (for an empty
separator we return `[s]`; Python raises there, and the sources never do). -/
def splitS (s sep : String) : List String :=
  if sep.data.isEmpty then [s]
  else (splitSGo sep.data (s.data.length + 1) s.data []).map sOf

/-- Python `sep.join(parts)`. -/
def joinS (sep : String) : List String → String
  | [] => ""
  | [x] => x
  | x :: y :: rest => x ++ sep ++ joinS sep (y :: rest)

/-- Python `s.partition(sep)` restricted to the two components the sources
use: the text before the first occurrence of `sep` and the text after it
(both empty-on-the-right when `sep` does not occur). -/
def pyPartition2 (s sep : String) : String × String :=
  match splitS s sep with
  | [] => (s, "")
  | h :: t => (h, joinS sep t)

/-- Python `s.replace(old, new)` for non-empty `old`. -/
def pyReplace (s old new : String) : String :=
  joinS new (splitS s old)

/-- Python `s.strip()` (whitespace on both ends; we use Lean's ASCII
whitespace predicate, which covers every character the sources produce). -/
def pyStrip (s : String) : String :=
  sOf (((s.data.dropWhile Char.isWhitespace).reverse.dropWhile Char.isWhitespace).reverse)

/-- Python `s.lstrip()`. -/
def pyLStrip (s : String) : String :=
  sOf (s.data.dropWhile Char.isWhitespace)

/-- Python `s.upper()` (ASCII case map; the headers the dispatcher
upper-cases are ASCII). -/
def pyUpper (s : String) : String := sOf (s.data.map Char.toUpper)

/-- Python `s.lower()` (ASCII case map). -/
def pyLower (s : String) : String := sOf (s.data.map Char.toLower)

/-- Helper for `splitKeepNL`. -/
def splitKeepNLGo : List Char → List Char → List (List Char)
  | [], cur => if cur.isEmpty then [] else [cur.reverse]
  | c :: rest, cur =>
    if c = '\n' then (cur.reverse ++ ['\n']) :: splitKeepNLGo rest []
    else splitKeepNLGo rest (c :: cur)

/-- Python `s.splitlines(keepends=True)` for text whose only line terminator
is `'\n'` — which is guaranteed where the sources call it, namely after
normalising `"\r\n"` and `"\r"` to `"\n"`. -/
def splitKeepNL (s : String) : List String :=
  (splitKeepNLGo s.data []).map sOf

/-- Helper for `pySplitlines`. -/
def pySplitlinesGo : List Char → List Char → List (List Char)
  | [], cur => if cur.isEmpty then [] else [cur.reverse]
  | '\r' :: '\n' :: rest, cur => cur.reverse :: pySplitlinesGo rest []
  | '\r' :: rest, cur => cur.reverse :: pySplitlinesGo rest []
  | '\n' :: rest, cur => cur.reverse :: pySplitlinesGo rest []
  | c :: rest, cur => pySplitlinesGo rest (c :: cur)

/-- Python `s.splitlines()` over the `\n`, `\r\n` and `\r` terminators (the
exotic Unicode line boundaries Python also recognises never appear in the
repository's data). -/
def pySplitlines (s : String) : List String :=
  (pySplitlinesGo s.data []).map sOf

/-- Decimal digits. -/
def digitChar : Nat → Char
  | 0 => '0' | 1 => '1' | 2 => '2' | 3 => '3' | 4 => '4'
  | 5 => '5' | 6 => '6' | 7 => '7' | 8 => '8' | _ => '9'

/-- Helper for `natToStr` (fuel-driven most-significant-first rendering). -/
def natToStrGo : Nat → Nat → List Char
  | 0, _ => []
  | fuel + 1, n =>
    if n < 10 then [digitChar n]
    else natToStrGo fuel (n / 10) ++ [digitChar (n % 10)]

/-- Decimal rendering of a natural number (Python `str(n)` for `n ≥ 0`). -/
def natToStr (n : Nat) : String := sOf (natToStrGo (n + 1) n)

/-- Decimal rendering of an integer (Python `str(n)`). -/
def intToStr (n : Int) : String :=
  if n < 0 then "-" ++ natToStr n.natAbs else natToStr n.natAbs

/-- Lexicographic comparison of character lists (Python's `<` on strings). -/
def ltChars : List Char → List Char → Bool
  | [], [] => false
  | [], _ :: _ => true
  | _ :: _, [] => false
  | a :: as, b :: bs => if a = b then ltChars as bs else decide (a < b)

/-- Insertion into a list sorted by `ltChars`. -/
def sortInsertS (x : String) : List String → List String
  | [] => [x]
  | y :: ys => if ltChars x.data y.data then x :: y :: ys else y :: sortInsertS x ys

/-- Python `sorted(...)` on strings (insertion sort; stability is irrelevant
because string order is total). -/
def sortS : List String → List String
  | [] => []
  | x :: xs => sortInsertS x (sortS xs)

/-! ## PathSandbox (`paicode/workspace.py`)

`PROJECT_ROOT` is `os.path.abspath(os.getcwd())`, fixed at interpreter
start-up; the embedding passes it around as the explicit parameter `root`.
-/

/-- `SENSITIVE_PATTERNS` from `workspace.py` (a set literal in the source;
membership is all that is ever used). -/
def SENSITIVE_PATTERNS : List String :=
  [".env", ".git", "venv", ".venv", "__pycache__", ".pai_history", ".idea", ".vscode"]

/-- Component processing loop of CPython's `posixpath.normpath`. -/
def normpathComps (slashes : Nat) : List String → List String → List String
  | [], acc => acc
  | comp :: rest, acc =>
    if comp = "" ∨ comp = "." then normpathComps slashes rest acc
    else if comp ≠ ".." ∨ (slashes = 0 ∧ acc = []) ∨ (acc ≠ [] ∧ acc.getLast? = some "..") then
      normpathComps slashes rest (acc ++ [comp])
    else if acc.isEmpty then normpathComps slashes rest acc
    else normpathComps slashes rest acc.dropLast

/-- CPython `posixpath.normpath` (the repository targets POSIX and Windows;
the claims concern the POSIX path semantics). -/
def normpath (p : String) : String :=
  if p = "" then "."
  else
    let slashes : Nat :=
      if startsWithS p "/" then
        (if startsWithS p "//" ∧ ¬ startsWithS p "///" then 2 else 1)
      else 0
    let comps := splitCh '/' p
    let newComps := normpathComps slashes comps []
    let joined := sOf (List.replicate slashes '/') ++ joinS "/" newComps
    if joined = "" then "." else joined

/-- CPython `posixpath.join` for two arguments (all the sources need). -/
def pathJoin (a b : String) : String :=
  if startsWithS b "/" then b
  else if a = "" ∨ endsWithS a "/" then a ++ b
  else a ++ "/" ++ b

/-- `os.path.realpath` applied to an absolute path in a workspace without
symbolic links: it resolves `.` and `..` segments, i.e. normalizes.  (The
symlink-chasing that `realpath` additionally performs depends on filesystem
state outside the program and is not part of the embedding.) -/
def realpathNoLinks (p : String) : String := normpath p

/-- `_is_path_safe` from `workspace.py` (lines 191–218).  The `try/except`
wrapper in the source converts any exception into `False`; every operation
in the body is total here, so the embedding is a total Boolean function. -/
def is_path_safe (root path : String) : Bool :=
  if path = "" then false
  else
    let norm := normpath path
    let full := realpathNoLinks (pathJoin root norm)
    if ¬ startsWithS full root then false
    else if (splitCh '/' (pyReplace norm "\\" "/")).any
        (fun part => SENSITIVE_PATTERNS.contains part) then false
    else true

/-! ## WorkspaceStore (`paicode/workspace.py`)

The filesystem visible to the engine is modelled as an association list from
relative file paths to contents together with a list of directory paths
(both relative to the project root).  `os`-level operations (`exists`,
`isfile`, `isdir`, `makedirs`, `open`, `remove`, `rmtree`, `move`) act on
this structure.
-/

/-- A snapshot of the project workspace. -/
structure FS where
  files : List (String × String)
  dirs : List String
deriving DecidableEq, Repr

/-- Association-list lookup with decidable string equality. -/
def alookup {α : Type} (k : String) : List (String × α) → Option α
  | [] => none
  | (k', v) :: rest => if k' = k then some v else alookup k rest

/-- String membership in a list. -/
def elemS (x : String) : List String → Bool
  | [] => false
  | y :: ys => if x = y then true else elemS x ys

/-- Overwrite (or create) the file at `path`. -/
def FS.setFile (fs : FS) (path content : String) : FS :=
  { fs with files := (path, content) :: fs.files.filter (fun e => decide (e.1 ≠ path)) }

/-- Last path component (Python `os.path.basename` of a relative path). -/
def basenameS (p : String) : String :=
  (splitCh '/' p).getLast?.getD ""

/-- `os.path.dirname` of a relative path. -/
def dirnameS (p : String) : String :=
  let parts := splitCh '/' p
  if parts.length ≤ 1 then "" else joinS "/" parts.dropLast

/-- All ancestor paths of a `/`-separated relative path, shortest first. -/
def ancGo : List String → String → List String
  | [], _ => []
  | p :: rest, acc =>
    let cur := if acc = "" then p else acc ++ "/" ++ p
    cur :: ancGo rest cur

/-- `os.makedirs(d, exist_ok=True)` for a relative directory path `d`
(creates every missing ancestor; a no-op for `d = ""`). -/
def FS.makedirs (fs : FS) (d : String) : FS :=
  if d = "" then fs
  else { fs with
          dirs := fs.dirs ++ (ancGo (splitCh '/' d) "").filter
            (fun x => decide (¬ elemS x fs.dirs = true)) }

/-- Does `p` denote a directory (`os.path.isdir` on the workspace model)?
`"."` is the project root itself; a path is also a directory when some file
or recorded directory lives strictly below it. -/
def FS.isDir (fs : FS) (p : String) : Bool :=
  p = "." ∨ elemS p fs.dirs ∨
    fs.files.any (fun e => startsWithS e.1 (p ++ "/")) ∨
    fs.dirs.any (fun d => startsWithS d (p ++ "/"))

/-- `os.path.exists` on the workspace model. -/
def FS.existsPath (fs : FS) (p : String) : Bool :=
  (alookup p fs.files).isSome ∨ fs.isDir p

/-- `read_file` from `workspace.py` (lines 341–353): `None` when the path is
unsafe, missing, or unreadable (e.g. a directory); the content otherwise. -/
def read_file (root : String) (fs : FS) (file_path : String) : Option String :=
  if ¬ is_path_safe root file_path then none
  else alookup file_path fs.files

/-- `write_to_file` from `workspace.py` (lines 355–375).  Note that the
parent directories are created *before* the idempotency check, and that an
existing identical file short-circuits the write with a Warning. -/
def write_to_file (root : String) (fs : FS) (file_path content : String) : String × FS :=
  if ¬ is_path_safe root file_path then
    ("Error: Access to path '" ++ file_path ++ "' is denied or path is not secure.", fs)
  else
    let fs1 := fs.makedirs (dirnameS file_path)
    match alookup file_path fs1.files with
    | some existing =>
      if existing = content then
        ("Warning: No changes detected for " ++ file_path ++ ". File left untouched.", fs1)
      else
        ("Success: Content successfully written to: " ++ file_path, fs1.setFile file_path content)
    | none =>
      if fs1.isDir file_path then
        ("Error: Failed to write to file: [Errno 21] Is a directory: '" ++
          pathJoin root file_path ++ "'", fs1)
      else
        ("Success: Content successfully written to: " ++ file_path, fs1.setFile file_path content)

/-- `create_file` from `workspace.py` (lines 317–329): parent directories are
created, an existing path (file or directory) is left untouched with a
Warning, otherwise an empty file is created. -/
def create_file (root : String) (fs : FS) (file_path : String) : String × FS :=
  if ¬ is_path_safe root file_path then
    ("Error: Access to path '" ++ file_path ++ "' is denied or path is not secure.", fs)
  else
    let fs1 := fs.makedirs (dirnameS file_path)
    if fs1.existsPath file_path then
      ("Warning: File already exists, left untouched: " ++ file_path, fs1)
    else
      ("Success: File created: " ++ file_path, fs1.setFile file_path "")

/-- `create_directory` from `workspace.py` (lines 331–339); `makedirs` with
`exist_ok=True` succeeds on an existing directory and raises (here: returns
the Error branch) when a regular file occupies the path. -/
def create_directory (root : String) (fs : FS) (dir_path : String) : String × FS :=
  if ¬ is_path_safe root dir_path then
    ("Error: Access to path '" ++ dir_path ++ "' is denied or path is not secure.", fs)
  else if (alookup dir_path fs.files).isSome then
    ("Error: Failed to create directory: [Errno 17] File exists: '" ++
      pathJoin root dir_path ++ "'", fs)
  else
    ("Success: Directory created: " ++ dir_path, fs.makedirs dir_path)

/-- `delete_item` from `workspace.py` (lines 289–303): files are unlinked,
directories removed recursively, a missing path yields a Warning. -/
def delete_item (root : String) (fs : FS) (path : String) : String × FS :=
  if ¬ is_path_safe root path then
    ("Error: Access to path '" ++ path ++ "' is denied or path is not secure.", fs)
  else if (alookup path fs.files).isSome then
    ("Success: File deleted: " ++ path,
      { fs with files := fs.files.filter (fun e => decide (e.1 ≠ path)) })
  else if fs.isDir path then
    ("Success: Directory deleted: " ++ path,
      { files := fs.files.filter (fun e => decide (¬ startsWithS e.1 (path ++ "/") = true)),
        dirs := fs.dirs.filter
          (fun d => decide (d ≠ path ∧ ¬ startsWithS d (path ++ "/") = true)) })
  else
    ("Warning: Item not found, nothing deleted: " ++ path, fs)

/-- Rename the workspace entries rooted at `src` to live at `dst` instead. -/
def FS.renameTree (fs : FS) (src dst : String) : FS :=
  let ren : String → String := fun p =>
    if p = src then dst
    else if startsWithS p (src ++ "/") then
      dst ++ sOf (p.data.drop (src.data.length))
    else p
  { files := fs.files.map (fun e => (ren e.1, e.2)), dirs := fs.dirs.map ren }

/-- `move_item` from `workspace.py` (lines 305–315).  `shutil.move` into an
existing directory places the source inside it; a missing source is the
`FileNotFoundError` branch.  The embedded error message keeps the source's
fixed text and elides the OS-specific exception tail. -/
def move_item (root : String) (fs : FS) (source destination : String) : String × FS :=
  if ¬ is_path_safe root source ∨ ¬ is_path_safe root destination then
    ("Error: Source or destination path is not secure or is denied.", fs)
  else if ¬ fs.existsPath source then
    ("Error: Failed to move '" ++ source ++ "': [Errno 2] No such file or directory: '" ++
      pathJoin root source ++ "'", fs)
  else
    let target := if fs.isDir destination then destination ++ "/" ++ basenameS source
                  else destination
    ("Success: Item moved from '" ++ source ++ "' to '" ++ destination ++ "'",
      fs.renameTree source target)

/-- Is `p` inside the directory `base` (with `"."` meaning the root)? -/
def underDir (base p : String) : Bool :=
  if base = "." then true else startsWithS p (base ++ "/")

/-- Does some component of `p` name a sensitive entry? -/
def hasSensitiveComp (p : String) : Bool :=
  (splitCh '/' p).any (fun part => SENSITIVE_PATTERNS.contains part)

/-- `list_path` from `workspace.py` (lines 257–286): a recursive, sorted,
newline-separated listing of the files (and directories, suffixed `/`) below
`path`, pruning sensitive names.  The exact `os.walk` traversal is modelled
by collecting every workspace entry below `path` whose components are not
sensitive. -/
def list_path (root : String) (fs : FS) (path : String) : String :=
  if ¬ is_path_safe root path then "Error: Cannot access path '" ++ path ++ "'."
  else if ¬ fs.isDir path then "Error: '" ++ path ++ "' is not a valid directory."
  else
    let fileEntries := (fs.files.map (fun e => e.1)).filter
      (fun p => underDir path p && !(hasSensitiveComp p))
    let dirEntries := (fs.dirs.filter
      (fun d => underDir path d && !(hasSensitiveComp d))).map (fun d => d ++ "/")
    joinS "\n" (sortS (fileEntries ++ dirEntries))

/-- `tree_directory` from `workspace.py` (lines 220–255).  The error branches
and the leading `basename/` line follow the source; the nested ASCII prefix
rendering of the recursive tree is abstracted to one sorted `"├── "` line per
non-sensitive entry below `path` (no claim inspects the drawing itself). -/
def tree_directory (root : String) (fs : FS) (path : String) : String :=
  if ¬ is_path_safe root path then "Error: Cannot access path '" ++ path ++ "'."
  else if ¬ fs.isDir path then "Error: '" ++ path ++ "' is not a valid directory."
  else
    let entries := ((fs.files.map (fun e => e.1)) ++ fs.dirs).filter
      (fun p => underDir path p && !(hasSensitiveComp p))
    joinS "\n" ((basenameS (pathJoin root path) ++ "/") ::
      (sortS entries).map (fun e => "├── " ++ e))

/-! ## DiffPatchApplier (`paicode/workspace.py`, lines 379–436) -/

/-- Normalise line endings (`workspace.py` lines 402–403): `"\r\n"` then
`"\r"` become `"\n"`. -/
def pyNormalizeNL (s : String) : String :=
  pyReplace (pyReplace s "\r\n" "\n") "\r" "\n"

/-- Strip the longest common prefix of two lists of lines. -/
def cpStrip : List String → List String → List String × List String
  | a :: as, b :: bs => if a = b then cpStrip as bs else (a :: as, b :: bs)
  | as, bs => (as, bs)

/-- The differing middles of two line lists: both lists with their common
prefix and common suffix removed. -/
def diffMids (a b : List String) : List String × List String :=
  let s1 := cpStrip a b
  let s2 := cpStrip s1.1.reverse s1.2.reverse
  (s2.1.reverse, s2.2.reverse)

/-- Model of `difflib.unified_diff(a, b, fromfile, tofile)` at the level the
source consumes it: the result is empty exactly when `a = b` (difflib emits
no output for equal inputs), and otherwise consists of the two `--- `/`+++ `
header lines followed by one `-`-prefixed record per removed line and one
`+`-prefixed record per added line.  Hunk headers and context lines are
omitted: `_is_content_change` below ignores them in the source (they start
with `'@'` or `' '`), so the changed-line count agrees with difflib for
changes confined to one contiguous region, and the emptiness and
header-exclusion behaviour agree everywhere. -/
def unified_diff (a b : List String) (fromF toF : String) : List String :=
  if a = b then []
  else
    let mids := diffMids a b
    ["--- " ++ fromF, "+++ " ++ toF] ++
      mids.1.map (fun l => "-" ++ l) ++ mids.2.map (fun l => "+" ++ l)

/-- `_is_content_change` from `apply_modification_with_patch` (lines
413–418): count only `+`/`-` lines, excluding the `+++`/`---` file headers —
which also excludes genuine content lines that happen to begin with `--` or
`++`. -/
def is_content_change (line : String) : Bool :=
  if line = "" then false
  else if startsWithS line "+++" ∨ startsWithS line "---" then false
  else startsWithS line "+" ∨ startsWithS line "-"

/-- `apply_modification_with_patch` from `workspace.py` (lines 379–436).
The `threshold` parameter of the source is accepted and ignored, exactly as
in the source ("No size-based rejection" comment, line 425). -/
def apply_modification_with_patch (root : String) (fs : FS)
    (file_path original_content new_content : String) : (Bool × String) × FS :=
  if ¬ is_path_safe root file_path then
    ((false, "Error: Access to path '" ++ file_path ++ "' is denied or path is not secure."), fs)
  else
    let original_lines := splitKeepNL (pyNormalizeNL original_content)
    let new_lines := splitKeepNL (pyNormalizeNL new_content)
    let diff := unified_diff original_lines new_lines ("a/" ++ file_path) ("b/" ++ file_path)
    let changed_lines_count := (diff.filter is_content_change).length
    if diff.isEmpty then
      ((false, "Warning: No changes detected for " ++ file_path ++ ". File left untouched."), fs)
    else
      let wr := write_to_file root fs file_path new_content
      let ok := startsWithS wr.1 "Success"
      if ok then
        ((true, "Success: Applied modification to " ++ file_path ++ " (" ++
          natToStr changed_lines_count ++ " lines changed)."), wr.2)
      else
        ((false, wr.1), wr.2)


/-! ## CredentialStore (`paicode/config.py`)

The persisted JSON credential store.  `time.time()` is modelled by a natural
number `now` passed to each operation; blacklist expiry timestamps are
naturals on the same clock. -/

/-- The multi-key credential store (`_default_store`, `config.py` lines
17–25; the `version` and `default` fields never influence rotation and are
omitted). -/
structure KeyStore where
  keys : List (String × String)
  order : List String
  rr_index : Nat
  blacklist : List (String × Nat)
deriving DecidableEq, Repr

/-- Zero-based list indexing with `""` out of bounds (Python `order[idx]`
never goes out of bounds where the source uses it, because the index is
always reduced modulo the length). -/
def nthS : List String → Nat → String
  | [], _ => ""
  | x :: _, 0 => x
  | _ :: xs, n + 1 => nthS xs n

/-- The rotation loop of `get_next_available_key` (lines 219–233): starting
from cursor `rr` it probes at most `fuel` keys, advancing the cursor once per
probe, and returns the first key without a blacklist entry.  Callers pass
`fuel = order.length`, matching `max_attempts = len(order)`. -/
def gnakLoop (order : List String) (keys : List (String × String))
    (bl : List (String × Nat)) : Nat → Nat → Option (String × Option String) × Nat
  | rr, 0 => (none, rr)
  | rr, fuel + 1 =>
    let n := order.length
    let idx := rr % n
    let key_id := nthS order idx
    let rr' := (idx + 1) % n
    if (alookup key_id bl).isNone then (some (key_id, alookup key_id keys), rr')
    else gnakLoop order keys bl rr' fuel

/-- `get_next_available_key` from `config.py` (lines 191–237): purge expired
blacklist entries (`v ≤ now`), then round-robin over `order` skipping
blacklisted ids; `none` when `order` is empty (store untouched, line 203) or
every key is blacklisted (purged store persisted, lines 235–237). -/
def get_next_available_key (now : Nat) (store : KeyStore) :
    Option (String × Option String) × KeyStore :=
  if store.order.isEmpty then (none, store)
  else
    let bl := store.blacklist.filter (fun e => decide (¬ e.2 ≤ now))
    let r := gnakLoop store.order store.keys bl store.rr_index store.order.length
    (r.1, { store with blacklist := bl, rr_index := r.2 })

/-- `blacklist_key` from `config.py` (lines 239–256): record
`blacklist[key_id] = now + duration` (dict assignment replaces any previous
entry) and persist.  The user-facing minutes message goes to the console
only. -/
def blacklist_key (store : KeyStore) (key_id : String) (duration_seconds : Nat)
    (now : Nat) : KeyStore :=
  { store with blacklist :=
      (key_id, now + duration_seconds) :: store.blacklist.filter (fun e => decide (e.1 ≠ key_id)) }

/-- `get_blacklist_status` from `config.py` (lines 258–274): the remaining
cooldown of every still-blacklisted key. -/
def get_blacklist_status (now : Nat) (store : KeyStore) : List (String × Nat) :=
  store.blacklist.filterMap (fun e => if now < e.2 then some (e.1, e.2 - now) else none)

/-- Minimum of a list of naturals (`none` on the empty list). -/
def minNat? : List Nat → Option Nat
  | [] => none
  | x :: xs => match minNat? xs with
    | none => some x
    | some m => some (min x m)

/-- The minimum remaining cooldown over all blacklisted keys — the quantity
the specification says an all-blacklisted selection should report. -/
def minRemainingCooldown (now : Nat) (store : KeyStore) : Option Nat :=
  minNat? ((get_blacklist_status now store).map (fun e => e.2))

/-! ## ShellExecutor (`paicode/workspace.py`, lines 549–848)

A child process is modelled by its observable behaviour: it either exits
after `t` seconds with an exit code and streamed stdout/stderr, or blocks
forever (an interactive program waiting on stdin), in which case `out`/`err`
are whatever it streamed before blocking.  Wall-clock waiting in 0.2 s
slices is modelled at the granularity of the behaviour: the executor kills
the child exactly when the behaviour exceeds the timeout. -/

/-- Observable behaviour of a spawned child process. -/
inductive ProcBehavior where
  | exits (t : Nat) (code : Int) (out err : String)
  | blocks (out err : String)
deriving DecidableEq, Repr

/-- Does the process block indefinitely (e.g. waiting for interactive
input)? -/
def ProcBehavior.isBlocking : ProcBehavior → Bool
  | .blocks _ _ => true
  | _ => false

/-- The environment-variable configuration `run_shell` reads.
`timeoutSetting` is the parsed value of `PAI_SHELL_TIMEOUT` (`none` models
both an unset variable and a `ValueError`, which the source folds into the
same default). -/
structure ShellEnv where
  allowShellExec : Bool
  allowNet : Bool
  stream : Bool
  timeoutSetting : Option Int
deriving DecidableEq, Repr

/-- Timeout resolution (`workspace.py` lines 647–665): default 20 s, values
below 1 fall back to 20. -/
def effectiveTimeout : Option Int → Int
  | none => 20
  | some n => if n < 1 then 20 else n

/-- `net_indicators` (lines 632–635). -/
def netIndicators : List String :=
  ["curl ", " wget ", " http://", " https://", " git clone", " pip install", " apt ",
   " apt-get ", " npm ", " pnpm ", " yarn ", " brew ", " ssh ", " scp "]

/-- The network guard (lines 636–638): pad the command with spaces and look
for any indicator substring. -/
def netBlocked (command : String) : Bool :=
  netIndicators.any (fun tok => containsS (" " ++ command ++ " ") tok)

/-- Result of `_stream_process`: `(exit_code, stdout, stderr, timed_out)`. -/
structure StreamResult where
  exitCode : Int
  out : String
  err : String
  timedOut : Bool
deriving DecidableEq, Repr

/-- `_stream_process` from `workspace.py` (lines 549–615): poll the child in
0.2 s slices; once the elapsed wall clock exceeds `timeout_sec`, kill it and
report `timed_out = True` (`timedOut = true` in the model means exactly that
the kill of lines 602–607 was issued).  After a kill `returncode` is `None`
and is reported as `-1` (line 614). -/
def stream_process (beh : ProcBehavior) (timeout_sec : Int) : StreamResult :=
  match beh with
  | .exits t code out err =>
    if (t : Int) > timeout_sec then ⟨-1, out, err, true⟩ else ⟨code, out, err, false⟩
  | .blocks out err => ⟨-1, out, err, true⟩

/-- The timeout Warning of `run_shell` (lines 679–684). -/
def runShellTimeoutMsg (command : String) (timeout_sec : Int) : String :=
  "Warning: Shell command timed out. It may be waiting for interactive input.\nCommand: " ++
    command ++ "\nTimeout: " ++ intToStr timeout_sec ++
    "s (configurable via PAI_SHELL_TIMEOUT).\nTip: Use EXECUTE_INPUT to provide stdin or use a non-interactive strategy."

/-- The captured-output report of `run_shell` (lines 704–728). -/
def shellResultMsg (code : Int) (out err : String) : String :=
  let parts := ["ExitCode: " ++ intToStr code] ++
    (if out = "" then [] else ["STDOUT:\n" ++ out]) ++
    (if err = "" then [] else ["STDERR:\n" ++ err])
  (if code = 0 then "Success" else "Error") ++ ": Shell command executed.\n" ++ joinS "\n" parts

/-- `run_shell` from `workspace.py` (lines 618–730).  `beh` gives the
behaviour of the child process a command spawns.  The append-only audit log
lives in `.pai_history`, outside the sandboxed workspace model. -/
def run_shell (env : ShellEnv) (beh : String → ProcBehavior) (command : String) : String :=
  if ¬ env.allowShellExec then
    "Warning: Shell execution is disabled. Set PAI_ALLOW_SHELL_EXEC=true to enable."
  else if ¬ env.allowNet ∧ netBlocked command then
    "Warning: Network operations are disabled. Set PAI_ALLOW_NET=true to enable.\nBlocked command due to potential network access."
  else
    let timeout_sec := effectiveTimeout env.timeoutSetting
    if env.stream then
      let r := stream_process (beh command) timeout_sec
      if r.timedOut then runShellTimeoutMsg command timeout_sec
      else shellResultMsg r.exitCode (pyStrip r.out) (pyStrip r.err)
    else
      match beh command with
      | .blocks _ _ => runShellTimeoutMsg command timeout_sec
      | .exits t code out err =>
        if (t : Int) > timeout_sec then runShellTimeoutMsg command timeout_sec
        else shellResultMsg code (pyStrip out) (pyStrip err)

/-- The stdin-variant timeout Warning (`run_shell_with_input`, lines
797–801). -/
def runShellInputTimeoutMsg (command : String) (timeout_sec : Int) : String :=
  "Warning: Shell command timed out while providing stdin. It may expect more input.\nCommand: " ++
    command ++ "\nTimeout: " ++ intToStr timeout_sec ++ "s (configurable via PAI_SHELL_TIMEOUT)."

/-- `run_shell_with_input` from `workspace.py` (lines 732–848): like
`run_shell` but feeds a newline-terminated stdin payload; `behIn` maps
command and payload to the child's behaviour. -/
def run_shell_with_input (env : ShellEnv) (behIn : String → String → ProcBehavior)
    (command input_text : String) : String :=
  if ¬ env.allowShellExec then
    "Warning: Shell execution is disabled. Set PAI_ALLOW_SHELL_EXEC=true to enable."
  else if ¬ env.allowNet ∧ netBlocked command then
    "Warning: Network operations are disabled. Set PAI_ALLOW_NET=true to enable.\nBlocked command due to potential network access."
  else
    let timeout_sec := effectiveTimeout env.timeoutSetting
    let payload := if endsWithS input_text "\n" ∨ endsWithS input_text "\r\n" then input_text
                   else input_text ++ "\n"
    match behIn command payload with
    | .blocks _ _ => runShellInputTimeoutMsg command timeout_sec
    | .exits t code out err =>
      if (t : Int) > timeout_sec then runShellInputTimeoutMsg command timeout_sec
      else shellResultMsg code (pyStrip out) (pyStrip err)

/-! ## ActionDispatcher (`paicode/agent.py`)

`_generate_execution_renderables` parses a planner block, filters and caps
the action lines, and executes at most one action, producing Rich
renderables (purely visual; not modelled) and a log string (modelled as the
list `log` of appended entries, which the source joins with newlines).

The external text generator (`llm.generate_text_resilient`) is modelled by
an oracle: every prompt the dispatcher builds is a deterministic function of
a handful of fields (file path, instruction text, original content), so the
oracle is one function per prompt shape, mapping those fields to the
generated text; `""` models generation failure after all retries.  The
intermediate `_determine_code_chunk_size` strategy text only ever feeds back
into prompts and is folded into the oracle.

Cross-call mutable state is the workspace (`fs`) and the module-global
`_python_interpreter_checked` flag (`pyChecked`); everything else
(`executed_signatures`, `created_paths`, `wrote_nochange_paths`,
`noop_streak`) is local to one call and re-initialised each time. -/

/-- The text-generation oracle (all arguments: file path, instruction
description, original file content where applicable). -/
structure LLMOracle where
  modifyContent : String → String → String → String
  modifyRetry : String → String → String → String
  writeModify : String → String → String → String
  writeModifyRetry : String → String → String → String
  createContent : String → String → String
deriving Inhabited

/-- Everything `_generate_execution_renderables` reads from its process
environment: the workspace root, shell configuration, child-process
behaviour, the LLM oracle, `shlex.split` (a pure parser; `ValueError` is
modelled by `[]`, matching the `except: parts = []` at agent.py 566–568),
`shutil.which`, and the parsed values of `PAI_MAX_CMDS_PER_STEP`,
`PAI_EARLY_FINISH_NOOP` (parse failures are folded into their defaults 15
and 3 by the source) and `PAI_SHOW_THOUGHTS`. -/
structure DispatchEnv where
  root : String
  shell : ShellEnv
  beh : String → ProcBehavior
  behIn : String → String → ProcBehavior
  llm : LLMOracle
  shlexParts : String → List String
  which : String → Option String
  maxCmdsSetting : Int
  noopSetting : Int
  showThoughts : Bool

/-- Clamp of `PAI_MAX_CMDS_PER_STEP` (agent.py lines 197–204). -/
def maxCmdsPerStep (env : DispatchEnv) : Nat :=
  if env.maxCmdsSetting < 1 then 1
  else if env.maxCmdsSetting > 50 then 50
  else env.maxCmdsSetting.toNat

/-- Clamp of `PAI_EARLY_FINISH_NOOP` (agent.py line 85):
`max(1, min(threshold, 10))`. -/
def earlyNoopThreshold (env : DispatchEnv) : Nat :=
  (max 1 (min env.noopSetting 10)).toNat

/-- The closed header set (agent.py lines 112–115, identical at 844–847). -/
def allowedHeaders : List String :=
  ["CREATE_DIRECTORY", "CREATE_FILE", "WRITE_FILE", "READ_FILE", "MODIFY_FILE",
   "DELETE_PATH", "MOVE_PATH", "LIST_PATHS", "SHOW_TREE", "EXECUTE", "EXECUTE_INPUT", "FINISH"]

/-- `pl.split('::', 1)[0].strip().upper()` — the header of an action line. -/
def headerOf (line : String) : String :=
  pyUpper (pyStrip (pyPartition2 line "::").1)

/-- Non-empty stripped lines of the planner block (agent.py line 69). -/
def allLinesOf (plan : String) : List String :=
  ((splitCh '\n' (pyStrip plan)).map pyStrip).filter (fun l => decide (l ≠ ""))

/-- A line is actionable when it contains `::` (agent.py line 105). -/
def isActionLine (l : String) : Bool := containsS l "::"

/-- `_looks_like_code` (agent.py lines 124–136). -/
def looksLikeCode (s : String) : Bool :=
  if s = "" then false
  else if startsWithS s "```" then true
  else if ["<!DOCTYPE", "<html", "<head", "<body", "</", "function ", "const ",
      "let ", "var ", "class ", "def ", "\x7b", "[", "\x7b"].any
      (fun p => startsWithS (pyLStrip s) p) then true
  else if 4 ≤ (s.data.count '<') + (s.data.count '>') then true
  else if 200 < s.data.length then true
  else false

/-- The response lines actually logged (agent.py lines 139–164; the
truncated display path with `omit_long_response=True`, the dispatcher's
default): at most 12 lines, stopping at the first code-looking line. -/
def takeResponseLines : Nat → List String → List String
  | _, [] => []
  | 0, _ :: _ => []
  | n + 1, l :: rest =>
    if looksLikeCode l then [] else l :: takeResponseLines n rest

/-- The log contribution of the Agent Response section. -/
def responseLog (response_lines : List String) : List String :=
  if response_lines.isEmpty then []
  else
    let shown := takeResponseLines 12 response_lines
    if shown.isEmpty then [] else [joinS "\n" shown]

/-- Per-call mutable state of the execution loop, minus the bookkeeping that
only the loop wrapper touches.  `shellCalls` records every command string
handed to the shell executor (instrumentation used to state that free text
is never passed to a shell); `earlyFinish` records that the synthetic
early-FINISH of the no-op streak heuristic fired; `finished` that a `FINISH`
action broke the loop. -/
structure OpSt where
  fs : FS
  pyChecked : Bool
  log : List String
  shellCalls : List String
  createdPaths : List String
  wroteNochange : List String
  noopStreak : Nat
  earlyFinish : Bool
  finished : Bool
deriving DecidableEq, Repr

/-- Append one entry to the log. -/
def logAdd (st : OpSt) (m : String) : OpSt := { st with log := st.log ++ [m] }

/-- The synthetic early-finish message (agent.py lines 236, 283, 546, 634). -/
def finishEarlyMsg : String := "Task appears complete (repeated no-ops). Finishing early."

/-- Log the early-finish message, set the flag, and break. -/
def finishEarly (st : OpSt) : OpSt × Bool :=
  ({ st with log := st.log ++ [finishEarlyMsg], earlyFinish := true }, true)

/-- The repeated `noop_streak += 1; if noop_streak >= threshold: … break`
pattern of the skip branches (agent.py 234–240, 281–287, 544–550). -/
def noopBump (th : Nat) (st : OpSt) : OpSt × Bool :=
  let st := { st with noopStreak := st.noopStreak + 1 }
  if th ≤ st.noopStreak then finishEarly st else (st, false)

/-- The result-interpreter suggestions (agent.py lines 640–661). -/
def guidanceFor (op params result : String) : List String :=
  let low := pyLower result
  if containsS low "no changes detected" ∧ op = "MODIFY_FILE" then
    let target := (pyPartition2 params "::").1
    if target ≠ "" then
      ["READ_FILE::" ++ target,
       "MODIFY_FILE::" ++ target ++ "::Apply an explicit, line-anchored patch that changes the relevant section."]
    else []
  else if containsS low "does not exist" ∧ op = "MODIFY_FILE" then
    let target := (pyPartition2 params "::").1
    if target ≠ "" then
      ["WRITE_FILE::" ++ target ++ "::Create initial valid content based on the user's intent, then refine."]
    else []
  else if containsS low "timed out" ∧ (op = "EXECUTE" ∨ op = "EXECUTE_INPUT") then
    ["Use EXECUTE_INPUT with the required stdin payload or switch to a non-interactive command."]
  else []

/-- The `if result:` epilogue of the action loop (agent.py lines 596–663):
log the result (except for the data-returning ops, already logged), update
the no-op streak from the lowered result text, track created / no-change
paths, fire the early finish when the streak reaches the threshold, and
otherwise log any guidance suggestions. -/
def afterResult (th : Nat) (st : OpSt) (op params result : String) : OpSt × Bool :=
  if result = "" then (st, false)
  else
    let st := if op = "READ_FILE" ∨ op = "SHOW_TREE" ∨ op = "LIST_PATHS" then st
              else logAdd st result
    let lowered := pyLower result
    let streak :=
      if containsS lowered "warning: no changes detected" ∨
         containsS lowered "already exists" ∨ containsS lowered "skipping" then
        st.noopStreak + 1
      else 0
    let st := { st with noopStreak := streak }
    let st :=
      if op = "CREATE_FILE" then
        { st with createdPaths := st.createdPaths ++ [(pyPartition2 params "::").1] }
      else if op = "WRITE_FILE" ∧ containsS lowered "warning: no changes detected" then
        { st with wroteNochange := st.wroteNochange ++ [(pyPartition2 params "::").1] }
      else st
    if th ≤ streak then finishEarly st
    else
      let sugg := (guidanceFor op params result).take 3
      if sugg.isEmpty then (st, false)
      else (logAdd st (joinS "\n" ("Guidance:" :: sugg)), false)

/-- `_append_post_write_verification` (agent.py lines 89–102), log entry
only. -/
def postWriteLog (env : DispatchEnv) (fs : FS) (path : String) : String :=
  match read_file env.root fs path with
  | none => "Post-Write Verification: Unable to read '" ++ path ++ "'."
  | some curr =>
    "Post-Write Verification: " ++ path ++ " - " ++
      natToStr (pySplitlines curr).length ++ " lines, " ++
      natToStr curr.data.length ++ " characters"

/-- The fallback description `handle_write` substitutes for an empty one
(agent.py lines 863–867, same text at 271–274). -/
def writeFallbackDescFor (file_path : String) : String :=
  "Create the complete and runnable content for '" ++ file_path ++
    "'. Implement it fully based on the user's latest instructions and the current project context."

/-- `handle_write` from `agent.py` (lines 859–974): re-derive the
description from `params`, then either diff-modify an existing file via the
LLM (with one stricter retry if a successful apply still reports no
changes — a condition that is in fact unreachable, since a no-change apply
returns `success=False`) or generate and write content for a new file. -/
def handle_write (env : DispatchEnv) (fs : FS) (file_path params : String) : String × FS :=
  let description0 := pyStrip (pyPartition2 params "::").2
  let description := if description0 = "" then writeFallbackDescFor file_path else description0
  match read_file env.root fs file_path with
  | some existing =>
    let new_content := env.llm.writeModify file_path description existing
    if new_content ≠ "" then
      let r1 := apply_modification_with_patch env.root fs file_path existing new_content
      if r1.1.1 ∧ containsS r1.1.2 "No changes detected" then
        let retry_content := env.llm.writeModifyRetry file_path description existing
        if retry_content ≠ "" then
          let r2 := apply_modification_with_patch env.root r1.2 file_path existing retry_content
          (r2.1.2, r2.2)
        else (r1.1.2, r1.2)
      else (r1.1.2, r1.2)
    else ("Error: Failed to generate modified content for file: " ++ file_path, fs)
  | none =>
    let code_content := env.llm.createContent file_path description
    if code_content ≠ "" then write_to_file env.root fs file_path code_content
    else ("Error: Failed to generate content from LLM for file: " ++ file_path, fs)

/-- The fallback description for `MODIFY_FILE` (agent.py lines 318–324). -/
def modifyFallbackDesc : String :=
  "Apply the minimal, necessary modification to the file to fulfill the user's latest request and the current project context. If the intent is unclear, prioritize improving robustness (e.g., input handling for CLI, avoiding EOF on stdin, idempotent behavior) without changing public behavior. Do not reformat unrelated code. Return the full updated file content only."

/-- `_strip_code_fences` (agent.py lines 338–347). -/
def stripCodeFences (txt : String) : String :=
  let t := pyStrip txt
  if startsWithS t "```" ∧ endsWithS t "```" then
    let lines := pySplitlines t
    if 2 ≤ lines.length then joinS "\n" (lines.drop 1).dropLast else txt
  else txt

/-- The inline-content heuristic (agent.py lines 350–356). -/
def looksLikeInlineCode (d : String) : Bool :=
  containsS d "\n" ∧ (
    (containsS d "\x7b" ∧ containsS d "\x7d") ∨
    startsWithS (pyLStrip d) "/*" ∨
    startsWithS (pyLStrip d) "<!DOCTYPE" ∨
    startsWithS (pyLStrip d) "import " ∨
    startsWithS (pyLStrip d) "--- a/")

/-- `_extract_new_from_unified_diff` (agent.py lines 369–386). -/
def extractNewFromUnifiedDiff (patch_text : String) : String :=
  let lines := pySplitlines patch_text
  let out := lines.filterMap (fun ln =>
    if ln = "" then none
    else if startsWithS ln "+++" ∨ startsWithS ln "---" ∨ startsWithS ln "@@" then none
    else match ln.data with
      | '+' :: rest => some (sOf rest)
      | ' ' :: rest => some (sOf rest)
      | '-' :: _ => none
      | _ => some ln)
  joinS "\n" out ++ (if endsWithS patch_text "\n" then "\n" else "")

/-- The unified-diff branch of `MODIFY_FILE` falls through to line 410 of
`agent.py`, which reads `modification_prompt_1` before any assignment to it
(it is only assigned in the *other* inner branch, line 400): Python raises
`UnboundLocalError`, which the per-action `except` at lines 665–668 turns
into this log entry.  (The exception text shown is CPython ≥ 3.11's; older
interpreters word it differently, and no claim depends on the wording.) -/
def unboundLocalLog (action : String) : String :=
  "An exception occurred while processing '" ++ action ++
    "': cannot access local variable 'modification_prompt_1' where it is not associated with a value"

/-- The duplicated trailing modification block of `MODIFY_FILE` (agent.py
lines 445–488): unconditionally re-generate content from the same first
prompt, re-apply it against the *originally read* content, optionally retry,
log a post-write verification, and hand the final message to the result
epilogue. -/
def modifyDupBlock (env : DispatchEnv) (th : Nat) (st : OpSt)
    (file_path description original params : String) : OpSt × Bool :=
  let nc1 := env.llm.modifyContent file_path description original
  if nc1 ≠ "" then
    let r1 := apply_modification_with_patch env.root st.fs file_path original nc1
    let st := { st with fs := r1.2 }
    if r1.1.1 ∧ containsS r1.1.2 "No changes detected" then
      let nc2 := env.llm.modifyRetry file_path description original
      if nc2 ≠ "" then
        let r2 := apply_modification_with_patch env.root st.fs file_path original nc2
        let st := { st with fs := r2.2 }
        let st := logAdd st (postWriteLog env st.fs file_path)
        afterResult th st "MODIFY_FILE" params r2.1.2
      else
        let st := logAdd st (postWriteLog env st.fs file_path)
        afterResult th st "MODIFY_FILE" params r1.1.2
    else
      let st := logAdd st (postWriteLog env st.fs file_path)
      afterResult th st "MODIFY_FILE" params r1.1.2
  else
    afterResult th st "MODIFY_FILE" params
      ("Error: LLM failed to generate content for modification of '" ++ file_path ++ "'.")

/-- The `MODIFY_FILE` branch (agent.py lines 315–488): description fallback,
original read (Error if missing), fence stripping, then one of three paths —
inline content applied directly, a unified diff reconstructed and applied
(this path then crashes on line 410's unbound local, see `unboundLocalLog`),
or an LLM-generated modification — the first and third followed by the
unconditional duplicated block of lines 445–488. -/
def opModifyFile (env : DispatchEnv) (th : Nat) (st : OpSt) (params action : String) :
    OpSt × Bool :=
  let pr := pyPartition2 params "::"
  let file_path := pr.1
  let description := if pyStrip pr.2 = "" then modifyFallbackDesc else pr.2
  match read_file env.root st.fs file_path with
  | none =>
    (logAdd st ("Error: Cannot modify '" ++ file_path ++
      "' because it does not exist or cannot be read."), false)
  | some original =>
    let desc_clean := stripCodeFences description
    let isDiff := startsWithS (pyLStrip desc_clean) "--- a/"
    if looksLikeInlineCode desc_clean ∧ ¬ isDiff then
      let r1 := apply_modification_with_patch env.root st.fs file_path original desc_clean
      let st := { st with fs := r1.2 }
      let st := logAdd st (postWriteLog env st.fs file_path)
      modifyDupBlock env th st file_path description original params
    else if isDiff then
      let r1 := apply_modification_with_patch env.root st.fs file_path original
        (extractNewFromUnifiedDiff desc_clean)
      let st := { st with fs := r1.2 }
      let st := logAdd st (postWriteLog env st.fs file_path)
      (logAdd st (unboundLocalLog action), false)
    else
      let nc1 := env.llm.modifyContent file_path description original
      let st :=
        if nc1 ≠ "" then
          let r1 := apply_modification_with_patch env.root st.fs file_path original nc1
          let st := { st with fs := r1.2 }
          let st :=
            if r1.1.1 ∧ containsS r1.1.2 "No changes detected" then
              let nc2 := env.llm.modifyRetry file_path description original
              if nc2 ≠ "" then
                let r2 := apply_modification_with_patch env.root st.fs file_path original nc2
                { st with fs := r2.2 }
              else st
            else st
          logAdd st (postWriteLog env st.fs file_path)
        else st
      modifyDupBlock env th st file_path description original params

/-- The `WRITE_FILE` branch (agent.py lines 253–290): reject existing
targets with an Error, skip paths that previously produced a no-change
write, otherwise delegate to `handle_write` and log a post-write
verification. -/
def opWriteFile (env : DispatchEnv) (th : Nat) (st : OpSt) (params : String) : OpSt × Bool :=
  let file_path := (pyPartition2 params "::").1
  match read_file env.root st.fs file_path with
  | some _ =>
    (logAdd st ("Error: WRITE_FILE rejected for existing file '" ++ file_path ++
      "'. Use MODIFY_FILE for existing files. WRITE_FILE is only for new files."), false)
  | none =>
    if elemS file_path st.wroteNochange then
      noopBump th (logAdd st ("Warning: Skipping WRITE_FILE for '" ++ file_path ++
        "' (no changes in prior attempt)."))
    else
      let hw := handle_write env st.fs file_path params
      let st := { st with fs := hw.2 }
      let st := logAdd st (postWriteLog env st.fs file_path)
      afterResult th st "WRITE_FILE" params hw.1

/-- The `READ_FILE` branch (agent.py lines 292–313). -/
def opReadFile (env : DispatchEnv) (th : Nat) (st : OpSt) (params : String) : OpSt × Bool :=
  let path_to_read := (pyPartition2 params "::").1
  match read_file env.root st.fs path_to_read with
  | some content =>
    let st := logAdd st ("Content of " ++ path_to_read ++ ":\n---\n" ++ content ++ "\n---")
    afterResult th st "READ_FILE" params ("Success: Read and displayed " ++ path_to_read)
  | none =>
    afterResult th st "READ_FILE" params ("Error: Failed to read file: " ++ path_to_read)

/-- The `SHOW_TREE` branch (agent.py lines 490–500). -/
def opShowTree (env : DispatchEnv) (th : Nat) (st : OpSt) (params : String) : OpSt × Bool :=
  let p0 := (pyPartition2 params "::").1
  let path_to_list := if p0 = "" then "." else p0
  let out := tree_directory env.root st.fs path_to_list
  if out ≠ "" ∧ ¬ containsS out "Error:" then
    let st := logAdd st out
    afterResult th st "SHOW_TREE" params "Success: Displayed directory structure."
  else
    afterResult th st "SHOW_TREE" params
      (if out = "" then "Error: Failed to display directory structure." else out)

/-- The `LIST_PATHS` branch (agent.py lines 501–512). -/
def opListPaths (env : DispatchEnv) (th : Nat) (st : OpSt) (params : String) : OpSt × Bool :=
  let p0 := (pyPartition2 params "::").1
  let path_to_list := if p0 = "" then "." else p0
  let out := list_path env.root st.fs path_to_list
  if ¬ containsS out "Error:" then
    let st := logAdd st out
    afterResult th st "LIST_PATHS" params ("Success: Listed paths for '" ++ path_to_list ++ "'.")
  else
    afterResult th st "LIST_PATHS" params
      (if out = "" then "Error: Failed to list paths for '" ++ path_to_list ++ "'." else out)

/-- The `FINISH` branch (agent.py lines 514–518): log the message and break
out of the loop. -/
def opFinish (st : OpSt) (params : String) : OpSt × Bool :=
  let result := if params = "" then "Task is considered complete." else params
  ({ logAdd st result with finished := true }, true)

/-- The `CREATE_FILE` branch (agent.py lines 525–551): reject existing
files with an Error, skip already-handled paths, otherwise create. -/
def opCreateFile (env : DispatchEnv) (th : Nat) (st : OpSt) (params : String) : OpSt × Bool :=
  let path_only := (pyPartition2 params "::").1
  match read_file env.root st.fs path_only with
  | some _ =>
    (logAdd st ("Error: CREATE_FILE rejected for existing file '" ++ path_only ++
      "'. File already exists. Use MODIFY_FILE to edit existing files."), false)
  | none =>
    if elemS path_only st.createdPaths then
      noopBump th (logAdd st ("Warning: Skipping CREATE_FILE for '" ++ path_only ++
        "' (already handled)."))
    else
      let r := create_file env.root st.fs path_only
      afterResult th { st with fs := r.2 } "CREATE_FILE" params r.1

/-- `shlex.quote`: safe strings pass through, everything else is wrapped in
single quotes with embedded quotes escaped. -/
def shlexQuote (s : String) : String :=
  if s = "" then "''"
  else if s.data.all (fun c => c.isAlphanum ∨
      ['@', '%', '+', '=', ':', ',', '.', '/', '-', '_'].contains c) then s
  else "'" ++ pyReplace s "'" "'\"'\"'" ++ "'"

/-- The `EXECUTE` branch (agent.py lines 558–580): take the first `::`
segment as the command, optionally rewrite a leading `python` to `python3`
when only the latter exists, run a one-time `--version` health check for
python interpreters (a real shell invocation whose output is only printed),
then execute. -/
def opExecute (env : DispatchEnv) (th : Nat) (st : OpSt) (params : String) : OpSt × Bool :=
  let cmd0 := pyStrip (pyPartition2 params "::").1
  if cmd0 = "" then
    afterResult th st "EXECUTE" params "Error: EXECUTE requires a non-empty command before '::'."
  else
    let parts0 := env.shlexParts cmd0
    let pc : List String × String :=
      match parts0 with
      | [] => ([], cmd0)
      | prog :: rest =>
        if prog = "python" ∧ (env.which "python").isNone ∧ (env.which "python3").isSome then
          ("python3" :: rest, joinS " " (("python3" :: rest).map shlexQuote))
        else (prog :: rest, cmd0)
    let st :=
      match pc.1 with
      | [] => st
      | prog :: _ =>
        if ¬ st.pyChecked ∧ startsWithS prog "python" then
          { st with shellCalls := st.shellCalls ++ [prog ++ " --version"], pyChecked := true }
        else st
    let st := { st with shellCalls := st.shellCalls ++ [pc.2] }
    afterResult th st "EXECUTE" params (run_shell env.shell env.beh pc.2)

/-- The `EXECUTE_INPUT` branch (agent.py lines 581–588). -/
def opExecuteInput (env : DispatchEnv) (th : Nat) (st : OpSt) (params : String) : OpSt × Bool :=
  let pr := pyPartition2 params "::"
  let cmd := pyStrip pr.1
  if cmd = "" then
    afterResult th st "EXECUTE_INPUT" params
      "Error: EXECUTE_INPUT requires a command before the second '::'."
  else
    let st := { st with shellCalls := st.shellCalls ++ [cmd] }
    afterResult th st "EXECUTE_INPUT" params (run_shell_with_input env.shell env.behIn cmd pr.2)

/-- The header switch of the action loop (agent.py lines 253–594).  The
final branch — an unknown header reported as ignored — is unreachable from
`dispatch` because unknown headers are filtered out before the loop (lines
111–121); it is embedded for completeness. -/
def execOp (env : DispatchEnv) (th : Nat) (st : OpSt) (op params action : String) :
    OpSt × Bool :=
  if op = "WRITE_FILE" then opWriteFile env th st params
  else if op = "READ_FILE" then opReadFile env th st params
  else if op = "MODIFY_FILE" then opModifyFile env th st params action
  else if op = "SHOW_TREE" then opShowTree env th st params
  else if op = "LIST_PATHS" then opListPaths env th st params
  else if op = "FINISH" then opFinish st params
  else if op = "CREATE_DIRECTORY" then
    let r := create_directory env.root st.fs (pyPartition2 params "::").1
    afterResult th { st with fs := r.2 } "CREATE_DIRECTORY" params r.1
  else if op = "CREATE_FILE" then opCreateFile env th st params
  else if op = "DELETE_PATH" then
    let r := delete_item env.root st.fs (pyPartition2 params "::").1
    afterResult th { st with fs := r.2 } "DELETE_PATH" params r.1
  else if op = "MOVE_PATH" then
    let pr := pyPartition2 params "::"
    let r := move_item env.root st.fs pr.1 pr.2
    afterResult th { st with fs := r.2 } "MOVE_PATH" params r.1
  else if op = "EXECUTE" then opExecute env th st params
  else if op = "EXECUTE_INPUT" then opExecuteInput env th st params
  else
    (logAdd st ("Warning: Unknown or unsupported command header ignored: " ++ op), false)

/-- The loop-wrapper state: the operation state plus the duplicate-signature
set and the record (instrumentation) of the headers that reached the
switch. -/
structure LoopSt where
  op : OpSt
  executedSigs : List String
  executedHeaders : List String
deriving DecidableEq, Repr

/-- One iteration of the action loop (agent.py lines 215–668): duplicate
signatures are skipped through the no-op streak bump; otherwise the action's
header is dispatched. -/
def execAction (env : DispatchEnv) (th : Nat) (st : LoopSt) (action : String) :
    LoopSt × Bool :=
  let internal_op := headerOf action
  let signature := pyStrip action
  if elemS signature st.executedSigs then
    let r := noopBump th (logAdd st.op
      ("Warning: Skipping duplicate action already executed: " ++ signature))
    ({ st with op := r.1 }, r.2)
  else
    let st := { st with executedSigs := st.executedSigs ++ [signature],
                        executedHeaders := st.executedHeaders ++ [internal_op] }
    let r := execOp env th st.op internal_op (pyPartition2 action "::").2 action
    ({ st with op := r.1 }, r.2)

/-- The action loop, with `break` modelled by the Boolean component. -/
def runActions (env : DispatchEnv) (th : Nat) : List String → LoopSt → LoopSt
  | [], st => st
  | a :: rest, st =>
    let r := execAction env th st a
    if r.2 then r.1 else runActions env th rest r.1

/-- The single-action policy log entry (agent.py line 212). -/
def policySingleMsg : String := "Policy: Single-command-per-step enforced; extra actions ignored."

/-- The observable outcome of one dispatcher call. -/
structure DispatchResult where
  log : List String
  fs : FS
  pyChecked : Bool
  shellCalls : List String
  executedHeaders : List String
  earlyFinish : Bool
  finished : Bool
deriving DecidableEq, Repr

/-- `_generate_execution_renderables` from `agent.py` (lines 61–670), log
and state part (`omit_long_response = True`, the dispatcher's default for
action steps).  Lines are classified into commentary and `::`-action lines;
action lines with headers outside the closed set are silently dropped (lines
111–121, with the explicit comment "No warnings about unknown commands" at
line 173); the list is capped by `PAI_MAX_CMDS_PER_STEP` and then
hard-capped to a single action (lines 209–213); the loop executes that
action. -/
def dispatch (env : DispatchEnv) (fs : FS) (pyChecked : Bool)
    (plan injected_thought : String) : DispatchResult :=
  if plan = "" then
    ⟨["Agent did not produce an action plan."], fs, pyChecked, [], [], false, false⟩
  else
    let all_lines := allLinesOf plan
    let response_lines := all_lines.filter (fun l => ! isActionLine l)
    let plan_lines := (all_lines.filter isActionLine).filter
      (fun pl => elemS (headerOf pl) allowedHeaders)
    let log0 := responseLog response_lines
    let log1 := log0 ++ (if plan_lines.isEmpty then [] else [joinS "\n" plan_lines])
    let log2 := log1 ++
      (if env.showThoughts ∧ injected_thought ≠ "" then ["Thought:\n" ++ injected_thought] else [])
    let capped := plan_lines.take (maxCmdsPerStep env)
    let log3 := log2 ++ (if 1 < capped.length then [policySingleMsg] else [])
    let actions := capped.take 1
    let st0 : LoopSt := ⟨⟨fs, pyChecked, log3, [], [], [], 0, false, false⟩, [], []⟩
    let fin := runActions env (earlyNoopThreshold env) actions st0
    ⟨fin.op.log, fin.op.fs, fin.op.pyChecked, fin.op.shellCalls, fin.executedHeaders,
      fin.op.earlyFinish, fin.op.finished⟩



/-! ## Statement helpers -/

/-- Does the path contain a parent-directory traversal segment? -/
def hasParentSeg (p : String) : Bool := elemS ".." (splitCh '/' p)

/-- The resolved form of a path exactly as `_is_path_safe` computes it:
`os.path.realpath(os.path.join(PROJECT_ROOT, os.path.normpath(path)))`. -/
def resolvedForm (root path : String) : String :=
  realpathNoLinks (pathJoin root (normpath path))

/-- Is `p` the root itself or genuinely under it (path-component prefix, as
opposed to the raw string prefix the source tests)? -/
def isUnderRoot (root p : String) : Bool :=
  p = root ∨ startsWithS p (root ++ "/")

/-- The changed-line count `apply_modification_with_patch` computes for a
given pair of contents. -/
def changedCountOf (path x y : String) : Nat :=
  ((unified_diff (splitKeepNL (pyNormalizeNL x)) (splitKeepNL (pyNormalizeNL y))
    ("a/" ++ path) ("b/" ++ path)).filter is_content_change).length

/-- The key ids returned by `n` consecutive `get_next_available_key` calls,
each threading the persisted store to the next (a failed selection
contributes `""`). -/
def collectKeys (now : Nat) : Nat → KeyStore → List String
  | 0, _ => []
  | n + 1, st =>
    let r := get_next_available_key now st
    (match r.1 with | some kv => kv.1 | none => "") :: collectKeys now n r.2

/-- A concrete three-key credential store used by witnesses. -/
def kstoreW : KeyStore :=
  ⟨[("k1", "s1"), ("k2", "s2"), ("k3", "s3")], ["k1", "k2", "k3"], 0, []⟩

/-- A concrete dispatcher environment for witnesses and counterexamples:
default shell settings, instantly succeeding silent child processes, an LLM
oracle that always fails to generate, no `python` on the PATH, and the
default caps (`PAI_MAX_CMDS_PER_STEP = 15`, `PAI_EARLY_FINISH_NOOP = 3`). -/
def dispatchEnvW : DispatchEnv :=
  { root := "/w"
    shell := ⟨true, false, true, none⟩
    beh := fun _ => .exits 0 0 "" ""
    behIn := fun _ _ => .exits 0 0 "" ""
    llm := ⟨fun _ _ _ => "", fun _ _ _ => "", fun _ _ _ => "", fun _ _ _ => "", fun _ _ => ""⟩
    shlexParts := fun _ => []
    which := fun _ => none
    maxCmdsSetting := 15
    noopSetting := 3
    showThoughts := true }

/-- The same environment with the no-op threshold configured to its minimum
clamp value 1 (`PAI_EARLY_FINISH_NOOP = 1`), the only configuration in which
the early-finish heuristic is reachable. -/
def dispatchEnvOne : DispatchEnv :=
  { root := "/w"
    shell := ⟨true, false, true, none⟩
    beh := fun _ => .exits 0 0 "" ""
    behIn := fun _ _ => .exits 0 0 "" ""
    llm := ⟨fun _ _ _ => "", fun _ _ _ => "", fun _ _ _ => "", fun _ _ _ => "", fun _ _ => ""⟩
    shlexParts := fun _ => []
    which := fun _ => none
    maxCmdsSetting := 15
    noopSetting := 1
    showThoughts := true }

/-! ## Claim theorems -/

/-- **C1, counterexample.**  The claim states that every non-empty path
containing a `..` segment or resolving outside the project root is rejected.
With project root `/a/b`, the path `../bc` contains a `..` segment, resolves
to `/a/bc` — outside the root — and is nevertheless *accepted*: the source's
containment test is `full_path.startswith(PROJECT_ROOT)`, a raw string
prefix check, and `/a/bc` starts with the string `/a/b`. -/
theorem c1_counterexample :
    hasParentSeg "../bc" = true ∧
    resolvedForm "/a/b" "../bc" = "/a/bc" ∧
    isUnderRoot "/a/b" (resolvedForm "/a/b" "../bc") = false ∧
    is_path_safe "/a/b" "../bc" = true := by decide

/-- **C1, amended.**  What `_is_path_safe` actually guarantees: every
non-empty path whose resolved form does not have the project root as a
*string* prefix is rejected.  (Paths whose `..` segments normalize away
inside the root, and escapes into a sibling directory whose absolute path
extends the root as a string, pass the check.) -/
theorem c1_amended (root path : String) (hne : path ≠ "")
    (hout : startsWithS (resolvedForm root path) root = false) :
    is_path_safe root path = false := by
  simp only [is_path_safe, resolvedForm] at *
  rw [if_neg hne, if_pos]
  simp [hout]

/-- **C1, witness** for the amended theorem at root `/a/b`, path `..`
(which resolves to `/a`, not a string extension of `/a/b`). -/
theorem c1_amended_witness : is_path_safe "/a/b" ".." = false :=
  c1_amended "/a/b" ".." (by decide) (by decide)

/-- **C10.**  `_is_path_safe` applied to the empty string returns `false`
for every project root: the `if not path` guard fires before any
normalization or resolution.  (The claim's second part — the check never
raises — is the `try/except` wrapper of lines 198–216; in the embedding
`is_path_safe` is accordingly a total Boolean function.) -/
theorem c10_empty_path_rejected : ∀ root : String, is_path_safe root "" = false := by
  intro root
  simp [is_path_safe]

/-! ### Shared lemmas about the workspace model -/

/-- `makedirs` never touches the file table. -/
theorem makedirs_files (fs : FS) (d : String) : (fs.makedirs d).files = fs.files := by
  unfold FS.makedirs; split <;> rfl

/-- Looking up a freshly written file yields its new content. -/
theorem alookup_setFile (fs : FS) (path c : String) :
    alookup path (fs.setFile path c).files = some c := by
  unfold FS.setFile alookup
  simp

/-- **C4.**  `write_to_file` is idempotent on its file table: when the
target currently holds byte-identical content the call reports the
no-changes Warning and leaves the file table untouched, and of two identical
consecutive calls the second always reports the no-changes Warning and
leaves the file table exactly as the first left it.  The hypothesis
`htarget` rules out the target path being an existing *directory* (where
both calls report the write Error instead). -/
theorem c4_write_to_file_idempotent (root : String) (fs : FS) (path content : String)
    (hsafe : is_path_safe root path = true)
    (htarget : (alookup path fs.files).isSome = true ∨
      (fs.makedirs (dirnameS path)).isDir path = false) :
    (alookup path fs.files = some content →
      (write_to_file root fs path content).1 =
        "Warning: No changes detected for " ++ path ++ ". File left untouched." ∧
      (write_to_file root fs path content).2.files = fs.files) ∧
    ((write_to_file root (write_to_file root fs path content).2 path content).1 =
      "Warning: No changes detected for " ++ path ++ ". File left untouched." ∧
     (write_to_file root (write_to_file root fs path content).2 path content).2.files =
      (write_to_file root fs path content).2.files) := by
  have hlift : ∀ g : FS, alookup path g.files = some content →
      (write_to_file root g path content).1 =
        "Warning: No changes detected for " ++ path ++ ". File left untouched." ∧
      (write_to_file root g path content).2.files = g.files := by
    intro g hcur
    unfold write_to_file
    rw [if_neg (by simp [hsafe])]
    simp only [makedirs_files, hcur]
    simp [makedirs_files]
  refine ⟨hlift fs, ?_⟩
  have hafter : alookup path (write_to_file root fs path content).2.files = some content := by
    unfold write_to_file
    rw [if_neg (by simp [hsafe])]
    simp only [makedirs_files]
    rcases hc : alookup path fs.files with _ | e
    · rcases htarget with hfile | hdir
      · rw [hc] at hfile; simp at hfile
      · simp only [hdir]
        simp [alookup_setFile, makedirs_files]
    · by_cases he : e = content
      · simp [he, hc, makedirs_files]
      · simp only [hc]
        simp [he, alookup_setFile, makedirs_files]
  exact hlift _ hafter

/-- **C4, witness**: a workspace where `f.txt` already holds `"x"`. -/
theorem c4_witness :
    (write_to_file "/w" ⟨[("f.txt", "x")], []⟩ "f.txt" "x").1 =
      "Warning: No changes detected for " ++ "f.txt" ++ ". File left untouched." ∧
    (write_to_file "/w" ⟨[("f.txt", "x")], []⟩ "f.txt" "x").2.files = [("f.txt", "x")] :=
  (c4_write_to_file_idempotent "/w" ⟨[("f.txt", "x")], []⟩ "f.txt" "x"
    (by decide) (Or.inl (by decide))).1 (by decide)

/-! ### Shared lemmas about the diff model -/

/-- String append acts componentwise on the character lists. -/
theorem sdata_append (a b : String) : (a ++ b).data = a.data ++ b.data := rfl

/-- Joining the keepends-split restores the original characters. -/
theorem splitKeepNLGo_join :
    ∀ (l cur : List Char), (splitKeepNLGo l cur).flatten = cur.reverse ++ l := by
  intro l
  induction l with
  | nil =>
    intro cur
    unfold splitKeepNLGo
    rcases cur with _ | ⟨c, cs⟩ <;> simp
  | cons c rest ih =>
    intro cur
    unfold splitKeepNLGo
    by_cases hc : c = '\n'
    · simp [hc, ih]
    · simp [hc, ih]

/-- `splitlines(keepends=True)` is injective. -/
theorem splitKeepNL_inj {a b : String} (h : splitKeepNL a = splitKeepNL b) : a = b := by
  unfold splitKeepNL at h
  have hmk : ∀ x y : List (List Char), x.map sOf = y.map sOf → x = y := by
    intro x
    induction x with
    | nil => intro y hy; cases y <;> simp_all
    | cons hd tl ih =>
      intro y hy
      cases y with
      | nil => simp_all
      | cons hd2 tl2 =>
        simp only [List.map_cons, List.cons.injEq] at hy
        have h1 : hd = hd2 := congrArg String.data (by simpa [sOf] using hy.1)
        exact h1 ▸ (ih tl2 hy.2) ▸ rfl
  have h2 := hmk _ _ h
  have j1 := splitKeepNLGo_join a.data []
  have j2 := splitKeepNLGo_join b.data []
  rw [h2] at j1
  simp at j1 j2
  have hdata : a.data = b.data := by rw [← j1]; exact j2
  cases a; cases b; simp_all

/-- `cpStrip` splits off a common prefix: both results are reached by
removing the same leading segment. -/
theorem cpStrip_spec : ∀ (a b : List String),
    ∃ p, a = p ++ (cpStrip a b).1 ∧ b = p ++ (cpStrip a b).2 := by
  intro a
  induction a with
  | nil => intro b; exact ⟨[], by simp [cpStrip]⟩
  | cons x xs ih =>
    intro b
    cases b with
    | nil => exact ⟨[], by simp [cpStrip]⟩
    | cons y ys =>
      by_cases hxy : x = y
      · obtain ⟨p, hp1, hp2⟩ := ih ys
        refine ⟨x :: p, ?_, ?_⟩ <;> simp [cpStrip, hxy, ← hp1, ← hp2]
      · exact ⟨[], by simp [cpStrip, hxy]⟩

/-- If the inputs differ, so do the stripped remainders. -/
theorem cpStrip_ne {a b : List String} (h : a ≠ b) : (cpStrip a b).1 ≠ (cpStrip a b).2 := by
  obtain ⟨p, hp1, hp2⟩ := cpStrip_spec a b
  intro he
  apply h
  rw [hp1, he]
  exact hp2.symm

/-- The stripped remainder on the left is a subset of the left input. -/
theorem cpStrip_subset_left : ∀ (a b : List String), (cpStrip a b).1 ⊆ a := by
  intro a b
  obtain ⟨p, hp1, _⟩ := cpStrip_spec a b
  intro l hl
  rw [hp1]
  exact List.mem_append_right p hl

/-- The stripped remainder on the right is a subset of the right input. -/
theorem cpStrip_subset_right : ∀ (a b : List String), (cpStrip a b).2 ⊆ b := by
  intro a b
  obtain ⟨p, _, hp2⟩ := cpStrip_spec a b
  intro l hl
  rw [hp2]
  exact List.mem_append_right p hl

/-- For different inputs the two differing middles cannot both be empty. -/
theorem diffMids_ne {a b : List String} (h : a ≠ b) :
    ¬ ((diffMids a b).1 = [] ∧ (diffMids a b).2 = []) := by
  rintro ⟨h1, h2⟩
  unfold diffMids at h1 h2
  simp only at h1 h2
  have hne1 : (cpStrip a b).1 ≠ (cpStrip a b).2 := cpStrip_ne h
  have hner : (cpStrip a b).1.reverse ≠ (cpStrip a b).2.reverse := by
    intro he; exact hne1 (by simpa using congrArg List.reverse he)
  have := cpStrip_ne hner
  apply this
  have e1 : (cpStrip (cpStrip a b).1.reverse (cpStrip a b).2.reverse).1 = [] := by
    simpa using congrArg List.reverse h1
  have e2 : (cpStrip (cpStrip a b).1.reverse (cpStrip a b).2.reverse).2 = [] := by
    simpa using congrArg List.reverse h2
  rw [e1, e2]

/-- Members of the left middle come from the left input. -/
theorem diffMids_mem_left {a b : List String} {l : String}
    (h : l ∈ (diffMids a b).1) : l ∈ a := by
  unfold diffMids at h
  simp only [List.mem_reverse] at h
  have h2 := cpStrip_subset_left (cpStrip a b).1.reverse (cpStrip a b).2.reverse h
  rw [List.mem_reverse] at h2
  exact cpStrip_subset_left a b h2

/-- Members of the right middle come from the right input. -/
theorem diffMids_mem_right {a b : List String} {l : String}
    (h : l ∈ (diffMids a b).2) : l ∈ b := by
  unfold diffMids at h
  simp only [List.mem_reverse] at h
  have h2 := cpStrip_subset_right (cpStrip a b).1.reverse (cpStrip a b).2.reverse h
  rw [List.mem_reverse] at h2
  exact cpStrip_subset_right a b h2

/-- Writing genuinely new content over an existing file reports Success. -/
theorem write_success (root : String) (fs : FS) (path x y : String)
    (hsafe : is_path_safe root path = true)
    (hx : alookup path fs.files = some x) (hxy : x ≠ y) :
    write_to_file root fs path y =
      ("Success: Content successfully written to: " ++ path,
        (fs.makedirs (dirnameS path)).setFile path y) := by
  unfold write_to_file
  rw [if_neg (by simp [hsafe])]
  simp only [makedirs_files, hx]
  simp [hxy]

/-- The Success message of a write starts with `"Success"` whatever the
path. -/
theorem startsWith_success_msg (path : String) :
    startsWithS ("Success: Content successfully written to: " ++ path) "Success" = true := by
  show List.isPrefixOf _ _ = true
  rw [sdata_append]
  simp [List.isPrefixOf]

/-- A `-`-prefixed diff record counts as a content change unless the
underlying line itself begins with `--` (then it collides with the `---`
file-header pattern and is excluded). -/
theorem is_content_change_minus (l : String) (h : startsWithS l "--" = false) :
    is_content_change ("-" ++ l) = true := by
  have hd : ("-" ++ l).data = '-' :: l.data := rfl
  have hne : ¬ ("-" ++ l) = "" := by
    intro he
    have h2 := congrArg String.data he
    rw [hd] at h2
    exact List.noConfusion h2
  unfold is_content_change
  rw [if_neg hne]
  have h1 : startsWithS ("-" ++ l) "+++" = false := by
    unfold startsWithS; rw [hd]; rfl
  have h2 : startsWithS ("-" ++ l) "---" = false := by
    unfold startsWithS
    rw [hd]
    show (('-' == '-') && List.isPrefixOf ['-', '-'] l.data) = false
    rw [show ('-' == '-') = true from rfl, Bool.true_and]
    exact h
  have h4 : startsWithS ("-" ++ l) "-" = true := by
    unfold startsWithS
    rw [hd]
    show (('-' == '-') && List.isPrefixOf [] l.data) = true
    simp [List.isPrefixOf]
  rw [if_neg (by simp [h1, h2])]
  simp [h4]

/-- A `+`-prefixed diff record counts as a content change unless the
underlying line itself begins with `++`. -/
theorem is_content_change_plus (l : String) (h : startsWithS l "++" = false) :
    is_content_change ("+" ++ l) = true := by
  have hd : ("+" ++ l).data = '+' :: l.data := rfl
  have hne : ¬ ("+" ++ l) = "" := by
    intro he
    have h2 := congrArg String.data he
    rw [hd] at h2
    exact List.noConfusion h2
  unfold is_content_change
  rw [if_neg hne]
  have h1 : startsWithS ("+" ++ l) "+++" = false := by
    unfold startsWithS
    rw [hd]
    show (('+' == '+') && List.isPrefixOf ['+', '+'] l.data) = false
    rw [show ('+' == '+') = true from rfl, Bool.true_and]
    exact h
  have h2 : startsWithS ("+" ++ l) "---" = false := by
    unfold startsWithS; rw [hd]; rfl
  have h4 : startsWithS ("+" ++ l) "+" = true := by
    unfold startsWithS
    rw [hd]
    show (('+' == '+') && List.isPrefixOf [] l.data) = true
    simp [List.isPrefixOf]
  rw [if_neg (by simp [h1, h2])]
  simp [h4]

/-- **C3, counterexample.**  Two concrete refutations of the claim's
`x ≠ y` half.  (i) `x = "a\r\n"`, `y = "a\n"`: the strings differ, but
line-ending normalization makes them identical, so the call returns
`applied = false` with the no-changes Warning instead of `applied = true`.
(ii) `x = "--a\n"`, `y = ""`: the call returns `applied = true` but a
changed-line count of `0` (< 1), because the single removed line `--a`
renders as the diff record `---a`, which the counter discards as a
file-header pattern. -/
theorem c3_counterexample :
    ("a\r\n" ≠ "a\n") ∧
    (apply_modification_with_patch "/w" ⟨[("f.txt", "a\r\n")], []⟩ "f.txt" "a\r\n" "a\n").1 =
      (false, "Warning: No changes detected for f.txt. File left untouched.") ∧
    ("--a\n" ≠ "") ∧
    (apply_modification_with_patch "/w" ⟨[("f.txt", "--a\n")], []⟩ "f.txt" "--a\n" "").1 =
      (true, "Success: Applied modification to f.txt (0 lines changed).") := by decide

/-- **C3, amended.**  For every safe path: (1) `apply(path, x, x)` returns
`applied = false` with the no-changes message and leaves the workspace
untouched; (2) when the file holds `x` and the *line-ending-normalized*
contents differ, `apply(path, x, y)` returns `applied = true` and reports
the computed changed-line count; (3) that count is at least 1 provided no
line of the normalized contents itself begins with `--` (removed side) or
`++` (added side) — the exclusion the counter applies to diff file
headers. -/
theorem c3_apply_modification (root : String) (fs : FS) (path x y : String)
    (hsafe : is_path_safe root path = true) :
    (apply_modification_with_patch root fs path x x =
      ((false, "Warning: No changes detected for " ++ path ++ ". File left untouched."), fs)) ∧
    (pyNormalizeNL x ≠ pyNormalizeNL y → alookup path fs.files = some x →
      (apply_modification_with_patch root fs path x y).1 =
        (true, "Success: Applied modification to " ++ path ++ " (" ++
          natToStr (changedCountOf path x y) ++ " lines changed).")) ∧
    (pyNormalizeNL x ≠ pyNormalizeNL y →
      (∀ l ∈ splitKeepNL (pyNormalizeNL x), startsWithS l "--" = false) →
      (∀ l ∈ splitKeepNL (pyNormalizeNL y), startsWithS l "++" = false) →
      1 ≤ changedCountOf path x y) := by
  refine ⟨?_, ?_, ?_⟩
  · unfold apply_modification_with_patch
    rw [if_neg (by simp [hsafe])]
    simp [unified_diff]
  · intro hnorm hlook
    have hxy : x ≠ y := fun he => hnorm (by rw [he])
    have hab : splitKeepNL (pyNormalizeNL x) ≠ splitKeepNL (pyNormalizeNL y) :=
      fun he => hnorm (splitKeepNL_inj he)
    unfold apply_modification_with_patch
    rw [if_neg (by simp [hsafe])]
    simp only [unified_diff, if_neg hab]
    rw [write_success root fs path x y hsafe hlook hxy]
    simp [startsWith_success_msg, changedCountOf, unified_diff, if_neg hab]
  · intro hnorm hx hy
    have hab : splitKeepNL (pyNormalizeNL x) ≠ splitKeepNL (pyNormalizeNL y) :=
      fun he => hnorm (splitKeepNL_inj he)
    unfold changedCountOf
    simp only [unified_diff, if_neg hab]
    rcases hmids : diffMids (splitKeepNL (pyNormalizeNL x)) (splitKeepNL (pyNormalizeNL y))
      with ⟨am, bm⟩
    rcases am with _ | ⟨l, rest⟩
    · rcases bm with _ | ⟨m, rest2⟩
      · exact absurd ⟨by rw [hmids], by rw [hmids]⟩ (diffMids_ne hab)
      · have hmm : m ∈ splitKeepNL (pyNormalizeNL y) :=
          diffMids_mem_right (by rw [hmids]; exact List.mem_cons_self m rest2)
        apply List.length_pos_of_mem (a := "+" ++ m)
        rw [List.mem_filter]
        refine ⟨?_, is_content_change_plus m (hy m hmm)⟩
        refine List.mem_append.mpr (Or.inr ?_)
        exact List.mem_map_of_mem _ (List.mem_cons_self m rest2)
    · have hml : l ∈ splitKeepNL (pyNormalizeNL x) :=
        diffMids_mem_left (by rw [hmids]; exact List.mem_cons_self l rest)
      apply List.length_pos_of_mem (a := "-" ++ l)
      rw [List.mem_filter]
      refine ⟨?_, is_content_change_minus l (hx l hml)⟩
      refine List.mem_append.mpr (Or.inl ?_)
      refine List.mem_append.mpr (Or.inr ?_)
      exact List.mem_map_of_mem _ (List.mem_cons_self l rest)

/-- **C3, witness** for the amended theorem at a concrete workspace:
`f.txt` holds `"x\n"`, rewritten to `"y\n"`. -/
theorem c3_witness :
    (apply_modification_with_patch "/w" ⟨[("f.txt", "x\n")], []⟩ "f.txt" "x\n" "x\n") =
      ((false, "Warning: No changes detected for " ++ "f.txt" ++ ". File left untouched."),
        ⟨[("f.txt", "x\n")], []⟩) ∧
    (apply_modification_with_patch "/w" ⟨[("f.txt", "x\n")], []⟩ "f.txt" "x\n" "y\n").1 =
      (true, "Success: Applied modification to " ++ "f.txt" ++ " (" ++
        natToStr (changedCountOf "f.txt" "x\n" "y\n") ++ " lines changed).") ∧
    1 ≤ changedCountOf "f.txt" "x\n" "y\n" := by
  have h := c3_apply_modification "/w" ⟨[("f.txt", "x\n")], []⟩ "f.txt" "x\n" "y\n" (by decide)
  exact ⟨h.1, h.2.1 (by decide) (by decide), h.2.2 (by decide) (by decide) (by decide)⟩

/-! ### Shared lemmas about the credential store -/

/-- `nthS` at a valid index returns a list member. -/
theorem nthS_mem : ∀ (l : List String) (n : Nat), n < l.length → nthS l n ∈ l := by
  intro l
  induction l with
  | nil => intro n h; simp at h
  | cons x xs ih =>
    intro n h
    cases n with
    | zero => exact List.mem_cons_self x xs
    | succ m =>
      exact List.mem_cons_of_mem x (ih m (by simpa using Nat.lt_of_succ_lt_succ h))

/-- On a duplicate-free list, `nthS` is injective on valid indices. -/
theorem nthS_inj : ∀ (l : List String), l.Nodup → ∀ (i j : Nat), i < l.length → j < l.length →
    nthS l i = nthS l j → i = j := by
  intro l
  induction l with
  | nil => intro _ i j hi; simp at hi
  | cons x xs ih =>
    intro hnd i j hi hj hij
    rcases List.nodup_cons.mp hnd with ⟨hx, hnd'⟩
    cases i with
    | zero =>
      cases j with
      | zero => rfl
      | succ m =>
        exfalso
        apply hx
        rw [show nthS (x :: xs) 0 = x from rfl] at hij
        rw [hij]
        exact nthS_mem xs m (by simpa using Nat.lt_of_succ_lt_succ hj)
    | succ n =>
      cases j with
      | zero =>
        exfalso
        apply hx
        rw [show nthS (x :: xs) 0 = x from rfl] at hij
        rw [← hij]
        exact nthS_mem xs n (by simpa using Nat.lt_of_succ_lt_succ hi)
      | succ m =>
        have := ih hnd' n m (by simpa using Nat.lt_of_succ_lt_succ hi)
          (by simpa using Nat.lt_of_succ_lt_succ hj) hij
        rw [this]

/-- The rotation loop only ever returns a key id without a blacklist
entry. -/
theorem gnakLoop_skips_blacklisted (order : List String) (keys : List (String × String))
    (bl : List (String × Nat)) :
    ∀ (fuel rr : Nat) (kid : String) (v : Option String),
      (gnakLoop order keys bl rr fuel).1 = some (kid, v) → alookup kid bl = none := by
  intro fuel
  induction fuel with
  | zero => intro rr kid v h; exact absurd h (by simp [gnakLoop])
  | succ n ih =>
    intro rr kid v h
    unfold gnakLoop at h
    by_cases hbl : (alookup (nthS order (rr % order.length)) bl).isNone
    · rw [if_pos hbl] at h
      have h1 : nthS order (rr % order.length) = kid := by
        have h2 := congrArg (fun o => Option.map Prod.fst o) h
        simpa using h2
      rw [← h1]
      exact Option.isNone_iff_eq_none.mp hbl
    · rw [if_neg hbl] at h
      exact ih _ kid v h

/-- If every key in a non-empty order is blacklisted, the loop exhausts its
fuel and returns `none`. -/
theorem gnakLoop_all_blacklisted (order : List String) (keys : List (String × String))
    (bl : List (String × Nat)) (hord : order ≠ [])
    (hall : ∀ k ∈ order, (alookup k bl).isSome = true) :
    ∀ (fuel rr : Nat), (gnakLoop order keys bl rr fuel).1 = none := by
  intro fuel
  induction fuel with
  | zero => intro rr; simp [gnakLoop]
  | succ n ih =>
    intro rr
    have hkey := hall _ (nthS_mem order (rr % order.length)
      (Nat.mod_lt rr (List.length_pos.mpr hord)))
    unfold gnakLoop
    rcases hc : alookup (nthS order (rr % order.length)) bl with _ | v
    · rw [hc] at hkey; exact Bool.noConfusion hkey
    · simp only [hc]
      exact ih _

/-- `blacklist_key` followed by the purge keeps the fresh entry as long as
its expiry lies in the future. -/
theorem blacklist_entry_survives (st : KeyStore) (K : String) (D t0 now : Nat)
    (hlt : now < t0 + D) :
    alookup K ((blacklist_key st K D t0).blacklist.filter (fun e => decide (¬ e.2 ≤ now))) =
      some (t0 + D) := by
  unfold blacklist_key
  simp only [List.filter_cons]
  rw [if_pos (by simpa using Nat.not_le.mpr hlt)]
  simp [alookup]

/-- **C7, counterexample.**  When every key is blacklisted the selection
result is the bare `None`: it carries no cooldown information and cannot
report the minimum remaining wait — two all-blacklisted stores with
different minimum cooldowns (800 s vs 300 s) produce the identical result,
and no caller in `src/paicode` computes the minimum from
`get_blacklist_status` either. -/
theorem c7_counterexample :
    (get_next_available_key 100 ⟨[("k1", "s1")], ["k1"], 0, [("k1", 900)]⟩).1 = none ∧
    (get_next_available_key 100 ⟨[("k1", "s1")], ["k1"], 0, [("k1", 400)]⟩).1 = none ∧
    minRemainingCooldown 100 ⟨[("k1", "s1")], ["k1"], 0, [("k1", 900)]⟩ = some 800 ∧
    minRemainingCooldown 100 ⟨[("k1", "s1")], ["k1"], 0, [("k1", 400)]⟩ = some 300 := by decide

/-- **C7, amended.**  Blacklisting `K` for duration `D` at time `t0` removes
it from rotation while `now < t0 + D` (part 1); once every blacklist entry
of the updated store has expired, selection succeeds again and returns the
key under the persisted cursor — in particular `K` itself when the cursor
points at it (part 2); and when every key of a store is blacklisted with an
unexpired entry, selection returns the bare `none` — the remaining
cooldowns are available only separately via `get_blacklist_status` /
`minRemainingCooldown` (part 3). -/
theorem c7_blacklist_rotation (st : KeyStore) (K : String) (D t0 now : Nat) :
    (now < t0 + D →
      ∀ v, (get_next_available_key now (blacklist_key st K D t0)).1 ≠ some (K, v)) ∧
    ((∀ e ∈ (blacklist_key st K D t0).blacklist, e.2 ≤ now) → st.order ≠ [] →
      (get_next_available_key now (blacklist_key st K D t0)).1 =
        some (nthS st.order (st.rr_index % st.order.length),
          alookup (nthS st.order (st.rr_index % st.order.length)) st.keys)) ∧
    (∀ s : KeyStore, (∀ e ∈ s.blacklist, now < e.2) →
      (∀ k ∈ s.order, (alookup k s.blacklist).isSome = true) →
      (get_next_available_key now s).1 = none) := by
  refine ⟨?_, ?_, ?_⟩
  · intro hlt v hcontra
    unfold get_next_available_key at hcontra
    by_cases hord : (blacklist_key st K D t0).order.isEmpty
    · rw [if_pos hord] at hcontra
      exact Option.noConfusion hcontra
    · rw [if_neg hord] at hcontra
      have hnone := gnakLoop_skips_blacklisted _ _ _ _ _ _ _ hcontra
      rw [blacklist_entry_survives st K D t0 now hlt] at hnone
      exact Option.noConfusion hnone
  · intro hexp hord
    unfold get_next_available_key
    have hord2 : (blacklist_key st K D t0).order = st.order := rfl
    rw [if_neg (by simp [hord2, List.isEmpty_iff, hord])]
    have hfilter : (blacklist_key st K D t0).blacklist.filter
        (fun e => decide (¬ e.2 ≤ now)) = [] := by
      apply List.filter_eq_nil_iff.mpr
      intro e he
      simpa using hexp e he
    rw [hfilter, hord2]
    have hrr : (blacklist_key st K D t0).rr_index = st.rr_index := rfl
    rw [hrr]
    rcases horder : st.order with _ | ⟨a, as⟩
    · exact absurd horder hord
    · simp [gnakLoop, alookup]
      rfl
  · intro s hfresh hall
    unfold get_next_available_key
    by_cases hord : s.order.isEmpty
    · rw [if_pos hord]
    · rw [if_neg hord]
      have hfilter : s.blacklist.filter (fun e => decide (¬ e.2 ≤ now)) = s.blacklist := by
        apply List.filter_eq_self.mpr
        intro e he
        simpa using Nat.not_le.mpr (hfresh e he)
      rw [hfilter]
      exact gnakLoop_all_blacklisted s.order s.keys s.blacklist
        (fun he => by rw [he] at hord; exact hord rfl) hall _ _

/-- **C7, witness**: the three-key store, `k1` blacklisted at `t0 = 100` for
600 s.  At `now = 300` the selection never yields `k1`; at `now = 700` the
entry has expired and `k1` (under the cursor) is selected again; a one-key
store whose only key is blacklisted yields `none`. -/
theorem c7_witness :
    (get_next_available_key 300 (blacklist_key kstoreW "k1" 600 100)).1 ≠
      some ("k1", some "s1") ∧
    (get_next_available_key 700 (blacklist_key kstoreW "k1" 600 100)).1 =
      some ("k1", some "s1") ∧
    (get_next_available_key 100 ⟨[("k1", "s1")], ["k1"], 0, [("k1", 900)]⟩).1 = none := by
  refine ⟨(c7_blacklist_rotation kstoreW "k1" 600 100 300).1 (by decide) (some "s1"), ?_, ?_⟩
  · exact ((c7_blacklist_rotation kstoreW "k1" 600 100 700).2.1
      (by decide) (by decide)).trans (by decide)
  · exact (c7_blacklist_rotation kstoreW "k1" 600 100 100).2.2
      ⟨[("k1", "s1")], ["k1"], 0, [("k1", 900)]⟩ (by decide) (by decide)

/-- With an empty blacklist, one selection step returns the key under the
wrapped cursor and advances the persisted cursor by one (mod the number of
keys). -/
theorem gnak_empty_bl (now : Nat) (st : KeyStore) (hord : st.order ≠ [])
    (hbl : st.blacklist = []) :
    get_next_available_key now st =
      (some (nthS st.order (st.rr_index % st.order.length),
        alookup (nthS st.order (st.rr_index % st.order.length)) st.keys),
       { st with blacklist := [],
                 rr_index := (st.rr_index % st.order.length + 1) % st.order.length }) := by
  unfold get_next_available_key
  rw [if_neg (by simp [List.isEmpty_iff, hord])]
  rw [hbl]
  rcases horder : st.order with _ | ⟨a, as⟩
  · exact absurd horder hord
  · simp [gnakLoop, alookup]

/-- Starting from an empty blacklist, the ids of `n` consecutive selections
are the order list read off cyclically from the cursor. -/
theorem collectKeys_empty_bl (now : Nat) :
    ∀ (n : Nat) (st : KeyStore), st.order ≠ [] → st.blacklist = [] →
    collectKeys now n st =
      (List.range n).map (fun i => nthS st.order ((st.rr_index + i) % st.order.length)) := by
  intro n
  induction n with
  | zero => intro st _ _; simp [collectKeys]
  | succ m ih =>
    intro st hord hbl
    unfold collectKeys
    rw [gnak_empty_bl now st hord hbl]
    dsimp only
    have hst' := ih
      ({ st with
          blacklist := []
          rr_index := (st.rr_index % st.order.length + 1) % st.order.length })
      (by simpa using hord) rfl
    simp only at hst'
    rw [hst']
    rw [List.range_succ_eq_map]
    simp only [List.map_cons, List.map_map]
    congr 1
    apply List.map_congr_left
    intro i _
    simp only [Function.comp]
    rw [Nat.mod_add_mod, Nat.add_assoc, Nat.mod_add_mod, Nat.add_comm 1 i]

/-- **C8.**  With `N` keys, a duplicate-free order list and no blacklisted
keys, `N` consecutive `get_next_available_key` calls (each persisting its
cursor for the next) return `N` ids that are pairwise distinct and all drawn
from the order list — i.e. every key is handed out once before any id
repeats. -/
theorem c8_round_robin_distinct (st : KeyStore) (now : Nat)
    (hord : st.order ≠ []) (hnodup : st.order.Nodup) (hbl : st.blacklist = []) :
    (collectKeys now st.order.length st).length = st.order.length ∧
    (collectKeys now st.order.length st).Nodup ∧
    ∀ k ∈ collectKeys now st.order.length st, k ∈ st.order := by
  have hN : 0 < st.order.length := List.length_pos.mpr hord
  rw [collectKeys_empty_bl now st.order.length st hord hbl]
  refine ⟨by simp, ?_, ?_⟩
  · apply List.Nodup.map_on ?_ (List.nodup_range _)
    intro x hx y hy hfxy
    rw [List.mem_range] at hx hy
    have hx1 : (st.rr_index + x) % st.order.length < st.order.length := Nat.mod_lt _ hN
    have hy1 : (st.rr_index + y) % st.order.length < st.order.length := Nat.mod_lt _ hN
    have heq : (st.rr_index + x) % st.order.length = (st.rr_index + y) % st.order.length :=
      nthS_inj st.order hnodup _ _ hx1 hy1 hfxy
    have h2 : x % st.order.length = y % st.order.length :=
      Nat.ModEq.add_left_cancel' st.rr_index heq
    rwa [Nat.mod_eq_of_lt hx, Nat.mod_eq_of_lt hy] at h2
  · intro k hk
    rw [List.mem_map] at hk
    obtain ⟨i, _, hi⟩ := hk
    rw [← hi]
    exact nthS_mem st.order _ (Nat.mod_lt _ hN)

/-- **C8, witness**: the three-key store hands out three pairwise distinct
ids in three consecutive calls. -/
theorem c8_witness :
    (collectKeys 0 3 kstoreW).length = 3 ∧ (collectKeys 0 3 kstoreW).Nodup := by
  have h := c8_round_robin_distinct kstoreW 0 (by decide) (by decide) (by decide)
  exact ⟨h.1, h.2.1⟩

/-! ### Shared lemmas about the shell executor -/

/-- `isInfixL` agrees with contiguous-sublist containment. -/
theorem isInfixL_iff (pat : List Char) :
    ∀ l : List Char, isInfixL pat l = true ↔ pat <:+: l := by
  intro l
  induction l with
  | nil =>
    simp only [isInfixL, List.isEmpty_iff]
    constructor
    · intro h; rw [h]
    · intro h
      have := List.eq_nil_of_infix_nil h
      exact this
  | cons c cs ih =>
    simp only [isInfixL, Bool.or_eq_true, List.isPrefixOf_iff_prefix, ih]
    rw [List.infix_cons_iff]

/-- String concatenation is associative. -/
theorem sappend_assoc (a b c : String) : (a ++ b) ++ c = a ++ (b ++ c) := by
  rcases a with ⟨la⟩; rcases b with ⟨lb⟩; rcases c with ⟨lc⟩
  show String.mk ((la ++ lb) ++ lc) = String.mk (la ++ (lb ++ lc))
  rw [List.append_assoc]

/-- A prefix of the left operand is a prefix of the concatenation. -/
theorem startsWithS_append_left (a b p : String) (h : startsWithS a p = true) :
    startsWithS (a ++ b) p = true := by
  unfold startsWithS at *
  rw [List.isPrefixOf_iff_prefix] at *
  rw [sdata_append]
  exact h.trans (List.prefix_append a.data b.data)

/-- A blocked child makes `run_shell` return the timeout Warning, in both
the streaming and the buffered mode. -/
theorem run_shell_blocking_eq (env : ShellEnv) (beh : String → ProcBehavior) (command : String)
    (hallow : env.allowShellExec = true)
    (hnet : env.allowNet = true ∨ netBlocked command = false)
    (hblock : (beh command).isBlocking = true) :
    run_shell env beh command =
      runShellTimeoutMsg command (effectiveTimeout env.timeoutSetting) := by
  unfold run_shell
  rw [if_neg (by simp [hallow])]
  rw [if_neg (by rcases hnet with h | h <;> simp [h])]
  rcases hb : beh command with ⟨t0, code, out, err⟩ | ⟨out, err⟩
  · rw [hb] at hblock; simp [ProcBehavior.isBlocking] at hblock
  · cases hstream : env.stream
    · simp [hstream, hb]
    · simp [hstream, hb, stream_process]

/-- The timeout Warning names the effective timeout value. -/
theorem timeoutMsg_contains (command : String) (t : Int) :
    containsS (runShellTimeoutMsg command t) ("Timeout: " ++ intToStr t ++ "s") = true := by
  unfold containsS runShellTimeoutMsg
  rw [isInfixL_iff]
  refine ⟨("Warning: Shell command timed out. It may be waiting for interactive input.\nCommand: "
      ++ command ++ "\n").data,
    " (configurable via PAI_SHELL_TIMEOUT).\nTip: Use EXECUTE_INPUT to provide stdin or use a non-interactive strategy.".data, ?_⟩
  have e2 : ("\nTimeout: " : String).data = '\n' :: ("Timeout: " : String).data := rfl
  have e3 : ("s (configurable via PAI_SHELL_TIMEOUT).\nTip: Use EXECUTE_INPUT to provide stdin or use a non-interactive strategy." : String).data =
      's' :: (" (configurable via PAI_SHELL_TIMEOUT).\nTip: Use EXECUTE_INPUT to provide stdin or use a non-interactive strategy." : String).data := rfl
  simp only [sdata_append, e2, e3]
  simp

/-- The timeout Warning starts with `Warning` and not with `Error`. -/
theorem timeoutMsg_warning (command : String) (t : Int) :
    startsWithS (runShellTimeoutMsg command t) "Warning" = true ∧
    startsWithS (runShellTimeoutMsg command t) "Error" = false := by
  constructor
  · unfold runShellTimeoutMsg
    rw [show ("Warning: Shell command timed out. It may be waiting for interactive input.\nCommand: "
        ++ command ++ "\nTimeout: " ++ intToStr t ++
        "s (configurable via PAI_SHELL_TIMEOUT).\nTip: Use EXECUTE_INPUT to provide stdin or use a non-interactive strategy.")
      = "Warning: Shell command timed out. It may be waiting for interactive input.\nCommand: " ++
        (command ++ ("\nTimeout: " ++ (intToStr t ++
        "s (configurable via PAI_SHELL_TIMEOUT).\nTip: Use EXECUTE_INPUT to provide stdin or use a non-interactive strategy.")))
      from by simp [sappend_assoc]]
    apply startsWithS_append_left
    rfl
  · unfold startsWithS runShellTimeoutMsg
    rfl

/-- **C9.**  A command whose child process blocks indefinitely on input is
killed at the configured wall-clock timeout (the `timedOut` outcome of
`stream_process` is by construction the kill of lines 602–607; the buffered
branch's `subprocess.run` kills internally on `TimeoutExpired`), and
`run_shell` reports a Warning — not an Error — whose text names the
effective timeout value. -/
theorem c9_timeout_warning (env : ShellEnv) (beh : String → ProcBehavior) (command : String)
    (hallow : env.allowShellExec = true)
    (hnet : env.allowNet = true ∨ netBlocked command = false)
    (hblock : (beh command).isBlocking = true) :
    startsWithS (run_shell env beh command) "Warning" = true ∧
    startsWithS (run_shell env beh command) "Error" = false ∧
    containsS (run_shell env beh command)
      ("Timeout: " ++ intToStr (effectiveTimeout env.timeoutSetting) ++ "s") = true ∧
    (stream_process (beh command) (effectiveTimeout env.timeoutSetting)).timedOut = true := by
  rw [run_shell_blocking_eq env beh command hallow hnet hblock]
  refine ⟨(timeoutMsg_warning _ _).1, (timeoutMsg_warning _ _).2, timeoutMsg_contains _ _, ?_⟩
  rcases hb : beh command with ⟨t0, code, out, err⟩ | ⟨out, err⟩
  · rw [hb] at hblock; simp [ProcBehavior.isBlocking] at hblock
  · simp [stream_process]

/-- **C9, witness**: `cat` blocking forever under the default environment
(20 s timeout, streaming, shell allowed, network guard inactive). -/
theorem c9_witness :
    startsWithS (run_shell ⟨true, false, true, none⟩ (fun _ => .blocks "" "") "cat")
      "Warning" = true ∧
    startsWithS (run_shell ⟨true, false, true, none⟩ (fun _ => .blocks "" "") "cat")
      "Error" = false ∧
    containsS (run_shell ⟨true, false, true, none⟩ (fun _ => .blocks "" "") "cat")
      ("Timeout: " ++ intToStr (effectiveTimeout (none : Option Int)) ++ "s") = true ∧
    (stream_process ((fun _ => ProcBehavior.blocks "" "") "cat")
      (effectiveTimeout (none : Option Int))).timedOut = true :=
  c9_timeout_warning ⟨true, false, true, none⟩ (fun _ => .blocks "" "") "cat"
    (by decide) (Or.inr (by decide)) (by decide)

/-! ### Shared lemmas about the dispatcher -/

/-- With a threshold of at least 2, a no-op bump from a zero streak cannot
fire the early finish. -/
theorem noopBump_no_early (th : Nat) (st : OpSt) (hth : 2 ≤ th)
    (hstreak : st.noopStreak = 0) :
    (noopBump th st).1.earlyFinish = st.earlyFinish ∧ (noopBump th st).2 = false := by
  unfold noopBump
  rw [if_neg (by simp [hstreak]; omega)]
  simp

/-- With a threshold of at least 2, the result epilogue applied at a zero
streak cannot fire the early finish. -/
theorem afterResult_no_early (th : Nat) (st : OpSt) (op params result : String)
    (hth : 2 ≤ th) (hstreak : st.noopStreak = 0) :
    (afterResult th st op params result).1.earlyFinish = st.earlyFinish ∧
    (afterResult th st op params result).2 = false := by
  unfold afterResult
  repeat' split
  all_goals simp_all [logAdd, finishEarly]
  all_goals (repeat' split)
  all_goals simp_all [logAdd, finishEarly]
  all_goals omega

/-- Rewrite form of `afterResult_no_early` for conditional simp. -/
theorem afterResult_early_eq (th : Nat) (st : OpSt) (op params result : String)
    (hth : 2 ≤ th) (hstreak : st.noopStreak = 0) :
    (afterResult th st op params result).1.earlyFinish = st.earlyFinish :=
  (afterResult_no_early th st op params result hth hstreak).1

/-- Rewrite form of `noopBump_no_early` for conditional simp. -/
theorem noopBump_early_eq (th : Nat) (st : OpSt)
    (hth : 2 ≤ th) (hstreak : st.noopStreak = 0) :
    (noopBump th st).1.earlyFinish = st.earlyFinish :=
  (noopBump_no_early th st hth hstreak).1

/-- The duplicated `MODIFY_FILE` tail block cannot fire the early finish
from a zero streak at threshold ≥ 2. -/
theorem modifyDupBlock_no_early (env : DispatchEnv) (th : Nat) (st : OpSt)
    (fp desc orig params : String) (hth : 2 ≤ th) (hstreak : st.noopStreak = 0)
    (hef : st.earlyFinish = false) :
    (modifyDupBlock env th st fp desc orig params).1.earlyFinish = false := by
  unfold modifyDupBlock
  dsimp only
  repeat' split
  all_goals simp [afterResult_early_eq, logAdd, hth, hstreak, hef]

/-- `MODIFY_FILE` cannot fire the early finish from a zero streak. -/
theorem opModifyFile_no_early (env : DispatchEnv) (th : Nat) (st : OpSt)
    (params action : String) (hth : 2 ≤ th) (hstreak : st.noopStreak = 0)
    (hef : st.earlyFinish = false) :
    (opModifyFile env th st params action).1.earlyFinish = false := by
  unfold opModifyFile
  dsimp only
  repeat' split
  all_goals solve
    | simp [logAdd, hef]
    | (apply modifyDupBlock_no_early env th _ _ _ _ _ hth <;> simp [logAdd, hstreak, hef])

/-- `WRITE_FILE` cannot fire the early finish from a zero streak. -/
theorem opWriteFile_no_early (env : DispatchEnv) (th : Nat) (st : OpSt)
    (params : String) (hth : 2 ≤ th) (hstreak : st.noopStreak = 0)
    (hef : st.earlyFinish = false) :
    (opWriteFile env th st params).1.earlyFinish = false := by
  unfold opWriteFile
  dsimp only
  repeat' split
  all_goals simp [afterResult_early_eq, noopBump_early_eq, logAdd, hth, hstreak, hef]

/-- `CREATE_FILE` cannot fire the early finish from a zero streak. -/
theorem opCreateFile_no_early (env : DispatchEnv) (th : Nat) (st : OpSt)
    (params : String) (hth : 2 ≤ th) (hstreak : st.noopStreak = 0)
    (hef : st.earlyFinish = false) :
    (opCreateFile env th st params).1.earlyFinish = false := by
  unfold opCreateFile
  dsimp only
  repeat' split
  all_goals simp [afterResult_early_eq, noopBump_early_eq, logAdd, hth, hstreak, hef]

/-- `READ_FILE` cannot fire the early finish from a zero streak. -/
theorem opReadFile_no_early (env : DispatchEnv) (th : Nat) (st : OpSt)
    (params : String) (hth : 2 ≤ th) (hstreak : st.noopStreak = 0)
    (hef : st.earlyFinish = false) :
    (opReadFile env th st params).1.earlyFinish = false := by
  unfold opReadFile
  dsimp only
  repeat' split
  all_goals simp [afterResult_early_eq, logAdd, hth, hstreak, hef]

/-- `SHOW_TREE` cannot fire the early finish from a zero streak. -/
theorem opShowTree_no_early (env : DispatchEnv) (th : Nat) (st : OpSt)
    (params : String) (hth : 2 ≤ th) (hstreak : st.noopStreak = 0)
    (hef : st.earlyFinish = false) :
    (opShowTree env th st params).1.earlyFinish = false := by
  unfold opShowTree
  dsimp only
  repeat' split
  all_goals simp [afterResult_early_eq, logAdd, hth, hstreak, hef]

/-- `LIST_PATHS` cannot fire the early finish from a zero streak. -/
theorem opListPaths_no_early (env : DispatchEnv) (th : Nat) (st : OpSt)
    (params : String) (hth : 2 ≤ th) (hstreak : st.noopStreak = 0)
    (hef : st.earlyFinish = false) :
    (opListPaths env th st params).1.earlyFinish = false := by
  unfold opListPaths
  dsimp only
  repeat' split
  all_goals simp [afterResult_early_eq, logAdd, hth, hstreak, hef]

/-- `FINISH` breaks the loop without firing the early finish. -/
theorem opFinish_no_early (st : OpSt) (params : String)
    (hef : st.earlyFinish = false) :
    (opFinish st params).1.earlyFinish = false := by
  unfold opFinish
  dsimp only
  simp [logAdd, hef]

/-- `EXECUTE` cannot fire the early finish from a zero streak. -/
theorem opExecute_no_early (env : DispatchEnv) (th : Nat) (st : OpSt)
    (params : String) (hth : 2 ≤ th) (hstreak : st.noopStreak = 0)
    (hef : st.earlyFinish = false) :
    (opExecute env th st params).1.earlyFinish = false := by
  unfold opExecute
  dsimp only
  repeat' split
  all_goals simp [afterResult_early_eq, logAdd, hth, hstreak, hef]

/-- `EXECUTE_INPUT` cannot fire the early finish from a zero streak. -/
theorem opExecuteInput_no_early (env : DispatchEnv) (th : Nat) (st : OpSt)
    (params : String) (hth : 2 ≤ th) (hstreak : st.noopStreak = 0)
    (hef : st.earlyFinish = false) :
    (opExecuteInput env th st params).1.earlyFinish = false := by
  unfold opExecuteInput
  dsimp only
  repeat' split
  all_goals simp [afterResult_early_eq, logAdd, hth, hstreak, hef]

/-- No branch of the header switch can fire the early finish from a zero
streak at threshold ≥ 2. -/
theorem execOp_no_early (env : DispatchEnv) (th : Nat) (st : OpSt)
    (op params action : String) (hth : 2 ≤ th) (hstreak : st.noopStreak = 0)
    (hef : st.earlyFinish = false) :
    (execOp env th st op params action).1.earlyFinish = false := by
  delta execOp
  by_cases h1 : op = "WRITE_FILE"
  · rw [if_pos h1]
    exact opWriteFile_no_early env th st params hth hstreak hef
  rw [if_neg h1]
  by_cases h2 : op = "READ_FILE"
  · rw [if_pos h2]
    exact opReadFile_no_early env th st params hth hstreak hef
  rw [if_neg h2]
  by_cases h3 : op = "MODIFY_FILE"
  · rw [if_pos h3]
    exact opModifyFile_no_early env th st params action hth hstreak hef
  rw [if_neg h3]
  by_cases h4 : op = "SHOW_TREE"
  · rw [if_pos h4]
    exact opShowTree_no_early env th st params hth hstreak hef
  rw [if_neg h4]
  by_cases h5 : op = "LIST_PATHS"
  · rw [if_pos h5]
    exact opListPaths_no_early env th st params hth hstreak hef
  rw [if_neg h5]
  by_cases h6 : op = "FINISH"
  · rw [if_pos h6]
    exact opFinish_no_early st params hef
  rw [if_neg h6]
  by_cases h7 : op = "CREATE_DIRECTORY"
  · rw [if_pos h7]
    simp [afterResult_early_eq, logAdd, hth, hstreak, hef]
  rw [if_neg h7]
  by_cases h8 : op = "CREATE_FILE"
  · rw [if_pos h8]
    exact opCreateFile_no_early env th st params hth hstreak hef
  rw [if_neg h8]
  by_cases h9 : op = "DELETE_PATH"
  · rw [if_pos h9]
    simp [afterResult_early_eq, logAdd, hth, hstreak, hef]
  rw [if_neg h9]
  by_cases h10 : op = "MOVE_PATH"
  · rw [if_pos h10]
    simp [afterResult_early_eq, logAdd, hth, hstreak, hef]
  rw [if_neg h10]
  by_cases h11 : op = "EXECUTE"
  · rw [if_pos h11]
    exact opExecute_no_early env th st params hth hstreak hef
  rw [if_neg h11]
  by_cases h12 : op = "EXECUTE_INPUT"
  · rw [if_pos h12]
    exact opExecuteInput_no_early env th st params hth hstreak hef
  rw [if_neg h12]
  simp [logAdd, hef]

/-- One loop iteration cannot fire the early finish from a zero streak. -/
theorem execAction_no_early (env : DispatchEnv) (th : Nat) (st : LoopSt) (action : String)
    (hth : 2 ≤ th) (hstreak : st.op.noopStreak = 0) (hef : st.op.earlyFinish = false) :
    (execAction env th st action).1.op.earlyFinish = false := by
  unfold execAction
  dsimp only
  repeat' split
  all_goals solve
    | simp [noopBump_early_eq, logAdd, hth, hstreak, hef]
    | (apply execOp_no_early env th _ _ _ _ hth <;> simp [hstreak, hef])

/-- Executing at most one action starting from a zero no-op streak cannot
fire the early finish when the threshold is at least 2. -/
theorem runActions_le_one_no_early (env : DispatchEnv) (th : Nat) (acts : List String)
    (st : LoopSt) (hth : 2 ≤ th) (hlen : acts.length ≤ 1)
    (hstreak : st.op.noopStreak = 0) (hef : st.op.earlyFinish = false) :
    (runActions env th acts st).op.earlyFinish = false := by
  match acts, hlen with
  | [], _ =>
    simpa [runActions] using hef
  | [a], _ =>
    unfold runActions
    dsimp only
    split
    · exact execAction_no_early env th st a hth hstreak hef
    · simp only [runActions]
      exact execAction_no_early env th st a hth hstreak hef

/-- **C6, counterexample.**  With the default threshold 3 the claimed
behaviour never occurs: dispatching the no-op action `CREATE_FILE::d` (the
directory `d` already exists) returns the Warning with the workspace
unchanged and `earlyFinish = false`, so three consecutive such calls are
three copies of this very result — no synthetic `FINISH` is ever emitted —
and a fourth action line still executes normally.  The heuristic does exist,
but the streak counter is a local variable reset on every dispatcher call
and execution is capped to one action per call, so it fires only at the
minimum clamp threshold 1, shown by the final conjuncts. -/
theorem c6_counterexample :
    earlyNoopThreshold dispatchEnvW = 3 ∧
    dispatch dispatchEnvW ⟨[], ["d"]⟩ false "CREATE_FILE::d" "" =
      ⟨["CREATE_FILE::d", "Warning: File already exists, left untouched: d"],
        ⟨[], ["d"]⟩, false, [], ["CREATE_FILE"], false, false⟩ ∧
    (dispatch dispatchEnvW
      (dispatch dispatchEnvW
        (dispatch dispatchEnvW
          (dispatch dispatchEnvW ⟨[], ["d"]⟩ false "CREATE_FILE::d" "").fs
          false "CREATE_FILE::d" "").fs
        false "CREATE_FILE::d" "").fs
      false "CREATE_FILE::notes.txt" "").log =
      ["CREATE_FILE::notes.txt", "Success: File created: notes.txt"] ∧
    (dispatch dispatchEnvW
      (dispatch dispatchEnvW
        (dispatch dispatchEnvW
          (dispatch dispatchEnvW ⟨[], ["d"]⟩ false "CREATE_FILE::d" "").fs
          false "CREATE_FILE::d" "").fs
        false "CREATE_FILE::d" "").fs
      false "CREATE_FILE::notes.txt" "").executedHeaders = ["CREATE_FILE"] ∧
    earlyNoopThreshold dispatchEnvOne = 1 ∧
    (dispatch dispatchEnvOne ⟨[], ["d"]⟩ false "CREATE_FILE::d" "").earlyFinish = true ∧
    (dispatch dispatchEnvOne ⟨[], ["d"]⟩ false "CREATE_FILE::d" "").log =
      ["CREATE_FILE::d", "Warning: File already exists, left untouched: d",
       "Task appears complete (repeated no-ops). Finishing early."] := by decide

/-- **C6, amended.**  Whenever the clamped no-op threshold is at least 2 —
in particular at the default 3 — the dispatcher never sets the early-finish
flag: the streak counter is re-initialised to 0 on every call and at most
one action line is executed per call, so the streak cannot reach the
threshold. -/
theorem c6_early_finish_unreachable (env : DispatchEnv) (fs : FS) (pyChecked : Bool)
    (plan thought : String) (hth : 2 ≤ earlyNoopThreshold env) :
    (dispatch env fs pyChecked plan thought).earlyFinish = false := by
  unfold dispatch
  split
  · rfl
  · dsimp only
    exact runActions_le_one_no_early env _ _ _ hth (List.length_take_le 1 _) rfl rfl

/-- **C6, witness** for the amended theorem at the default threshold 3. -/
theorem c6_witness :
    2 ≤ earlyNoopThreshold dispatchEnvW ∧
    (dispatch dispatchEnvW ⟨[], ["d"]⟩ false "CREATE_FILE::d" "").earlyFinish = false :=
  ⟨by decide,
    c6_early_finish_unreachable dispatchEnvW ⟨[], ["d"]⟩ false "CREATE_FILE::d" "" (by decide)⟩

/-! ### Shared lemmas about the executed-header record -/

/-- A loop iteration either leaves the executed-header record unchanged
(duplicate skip) or appends the action line's own header; the header switch
`execOp` operates on `OpSt` and cannot touch it. -/
theorem execAction_headers (env : DispatchEnv) (th : Nat) (st : LoopSt) (a : String) :
    (execAction env th st a).1.executedHeaders = st.executedHeaders ∨
    (execAction env th st a).1.executedHeaders = st.executedHeaders ++ [headerOf a] := by
  unfold execAction
  dsimp only
  split
  · exact Or.inl rfl
  · exact Or.inr rfl

/-- Every header recorded by the loop comes either from the initial record
or from one of the supplied action lines. -/
theorem runActions_headers (env : DispatchEnv) (th : Nat) :
    ∀ (acts : List String) (st : LoopSt),
    (∀ a ∈ acts, elemS (headerOf a) allowedHeaders = true) →
    (∀ h ∈ st.executedHeaders, elemS h allowedHeaders = true) →
    ∀ h ∈ (runActions env th acts st).executedHeaders, elemS h allowedHeaders = true := by
  intro acts
  induction acts with
  | nil =>
    intro st _ hst
    simpa [runActions] using hst
  | cons a rest ih =>
    intro st hacts hst
    have hstep : ∀ h ∈ (execAction env th st a).1.executedHeaders,
        elemS h allowedHeaders = true := by
      rcases execAction_headers env th st a with he | he
      · rw [he]; exact hst
      · rw [he]
        intro h hm
        rcases List.mem_append.mp hm with hm | hm
        · exact hst h hm
        · rw [List.mem_singleton.mp hm]
          exact hacts a (List.mem_cons_self a rest)
    unfold runActions
    dsimp only
    split
    · exact hstep
    · exact ih _ (fun b hb => hacts b (List.mem_cons_of_mem a hb)) hstep

/-- **C2, counterexample.**  `RUN::ls` is an action line with an
unrecognized header.  The claim says it is reported as a Warning; in fact
the dispatcher drops it *silently* (the source comments "No warnings about
unknown commands" at agent.py line 173): the call returns an empty log — no
Warning, no message at all — and executes nothing. -/
theorem c2_counterexample :
    dispatch dispatchEnvW ⟨[], []⟩ false "RUN::ls" "" =
      ⟨[], ⟨[], []⟩, false, [], [], false, false⟩ := by decide

/-- **C2, amended.**  (1) Every header that reaches the execution switch is
in the closed allowed set — free text is never passed to a shell; (2) a
planner block all of whose action lines carry unrecognized headers executes
nothing: workspace, Python-check flag, shell-call record, executed-header
record and finish flag are untouched, and any later step behaves exactly as
if the block had never been dispatched.  No Warning is produced (the log
impact is shown by the counterexample): unrecognized headers are dropped
silently. -/
theorem c2_unknown_headers (env : DispatchEnv) (fs : FS) (pyChecked : Bool)
    (plan thought : String) :
    (∀ h ∈ (dispatch env fs pyChecked plan thought).executedHeaders,
        elemS h allowedHeaders = true) ∧
    ((∀ l ∈ allLinesOf plan, isActionLine l = true →
        elemS (headerOf l) allowedHeaders = false) →
      (dispatch env fs pyChecked plan thought).fs = fs ∧
      (dispatch env fs pyChecked plan thought).pyChecked = pyChecked ∧
      (dispatch env fs pyChecked plan thought).shellCalls = [] ∧
      (dispatch env fs pyChecked plan thought).executedHeaders = [] ∧
      (dispatch env fs pyChecked plan thought).finished = false ∧
      ∀ plan2 thought2 : String,
        dispatch env (dispatch env fs pyChecked plan thought).fs
          (dispatch env fs pyChecked plan thought).pyChecked plan2 thought2 =
          dispatch env fs pyChecked plan2 thought2) := by
  constructor
  · by_cases hplan : plan = ""
    · intro h hm
      rw [hplan] at hm
      simp [dispatch] at hm
    · unfold dispatch
      rw [if_neg hplan]
      dsimp only
      refine runActions_headers env _ _ _ ?_ ?_
      · intro a ha
        exact (List.mem_filter.mp (List.take_subset _ _ (List.take_subset _ _ ha))).2
      · intro h hm
        simp at hm
  · intro hall
    by_cases hplan : plan = ""
    · have hd : dispatch env fs pyChecked plan thought =
          ⟨["Agent did not produce an action plan."], fs, pyChecked, [], [], false, false⟩ := by
        unfold dispatch
        rw [if_pos hplan]
      rw [hd]
      exact ⟨rfl, rfl, rfl, rfl, rfl, fun _ _ => rfl⟩
    · have hpl : ((allLinesOf plan).filter isActionLine).filter
          (fun pl => elemS (headerOf pl) allowedHeaders) = [] := by
        rw [List.filter_eq_nil_iff]
        intro pl hm
        rw [List.mem_filter] at hm
        simp [hall pl hm.1 hm.2]
      have hfs : (dispatch env fs pyChecked plan thought).fs = fs := by
        unfold dispatch
        rw [if_neg hplan]
        dsimp only
        rw [hpl]
        simp [runActions]
      have hpy : (dispatch env fs pyChecked plan thought).pyChecked = pyChecked := by
        unfold dispatch
        rw [if_neg hplan]
        dsimp only
        rw [hpl]
        simp [runActions]
      have hsh : (dispatch env fs pyChecked plan thought).shellCalls = [] := by
        unfold dispatch
        rw [if_neg hplan]
        dsimp only
        rw [hpl]
        simp [runActions]
      have hhd : (dispatch env fs pyChecked plan thought).executedHeaders = [] := by
        unfold dispatch
        rw [if_neg hplan]
        dsimp only
        rw [hpl]
        simp [runActions]
      have hfin : (dispatch env fs pyChecked plan thought).finished = false := by
        unfold dispatch
        rw [if_neg hplan]
        dsimp only
        rw [hpl]
        simp [runActions]
      refine ⟨hfs, hpy, hsh, hhd, hfin, ?_⟩
      intro plan2 thought2
      rw [hfs, hpy]

/-- **C2, witness** for the amended theorem: the unknown-header block
`RUN::ls` leaves the state untouched and a valid `CREATE_FILE` in the next
step runs exactly as it would have from the original state. -/
theorem c2_witness :
    (dispatch dispatchEnvW ⟨[], []⟩ false "RUN::ls" "").shellCalls = [] ∧
    (dispatch dispatchEnvW ⟨[], []⟩ false "RUN::ls" "").fs = ⟨[], []⟩ ∧
    dispatch dispatchEnvW (dispatch dispatchEnvW ⟨[], []⟩ false "RUN::ls" "").fs
      (dispatch dispatchEnvW ⟨[], []⟩ false "RUN::ls" "").pyChecked "CREATE_FILE::notes.txt" "" =
      dispatch dispatchEnvW ⟨[], []⟩ false "CREATE_FILE::notes.txt" "" := by
  have h := (c2_unknown_headers dispatchEnvW ⟨[], []⟩ false "RUN::ls" "").2 (by decide)
  exact ⟨h.2.2.1, h.1, h.2.2.2.2.2 "CREATE_FILE::notes.txt" ""⟩

/-- **C5, counterexample.**  The second `CREATE_FILE::notes.txt` (issued
after the first created the file) is not reported as a Warning: the
dispatcher's own pre-check (agent.py lines 526–533) rejects it with an
*Error* before `workspace.create_file` — whose Warning the claim describes —
is ever reached. -/
theorem c5_counterexample :
    (dispatch dispatchEnvW
      (dispatch dispatchEnvW ⟨[], []⟩ false "CREATE_FILE::notes.txt" "").fs
      false "CREATE_FILE::notes.txt" "").log =
      ["CREATE_FILE::notes.txt",
       "Error: CREATE_FILE rejected for existing file 'notes.txt'. File already exists. Use MODIFY_FILE to edit existing files."] ∧
    ∀ m ∈ (dispatch dispatchEnvW
      (dispatch dispatchEnvW ⟨[], []⟩ false "CREATE_FILE::notes.txt" "").fs
      false "CREATE_FILE::notes.txt" "").log,
      startsWithS m "Warning" = false := by decide

/-- **C5, amended.**  First `CREATE_FILE::notes.txt`: Success, the empty
file is created.  Second (in a later step): rejected with an Error — not
the claimed Warning — by the dispatcher's existing-file pre-check, and the
file is never overwritten.  The Warning "already exists" lives one layer
down: calling `workspace.create_file` directly on the existing path does
return it (also without overwriting), but the dispatcher never reaches that
call for an existing regular file. -/
theorem c5_create_file_twice :
    (dispatch dispatchEnvW ⟨[], []⟩ false "CREATE_FILE::notes.txt" "").log =
      ["CREATE_FILE::notes.txt", "Success: File created: notes.txt"] ∧
    (dispatch dispatchEnvW ⟨[], []⟩ false "CREATE_FILE::notes.txt" "").fs =
      ⟨[("notes.txt", "")], []⟩ ∧
    (dispatch dispatchEnvW ⟨[("notes.txt", "")], []⟩ false "CREATE_FILE::notes.txt" "").log =
      ["CREATE_FILE::notes.txt",
       "Error: CREATE_FILE rejected for existing file 'notes.txt'. File already exists. Use MODIFY_FILE to edit existing files."] ∧
    (dispatch dispatchEnvW ⟨[("notes.txt", "")], []⟩ false "CREATE_FILE::notes.txt" "").fs =
      ⟨[("notes.txt", "")], []⟩ ∧
    create_file "/w" ⟨[("notes.txt", "")], []⟩ "notes.txt" =
      ("Warning: File already exists, left untouched: notes.txt",
        ⟨[("notes.txt", "")], []⟩) := by decide
